import Mathlib

/-! Sigil main window: zoom mapping, zoom stepping and the view state.

A shallow embedding of the zoom code and of the view-state code of
`src/Sigil/MainUI/MainWindow.cpp`.

The C++ code computes with `float` and `double`; here every real quantity is an
exact rational (`ℚ`) and every `int` is an integer (`ℤ`), so the theorems speak
about the two-segment linear law itself, with the constants `0.09`, `1.0`,
`5.0`, `0.1`, `0.05`, `0.01` read as exact values.

The one place where single precision decides the outcome is the on-grid test
of `ZoomByStep`, `qAbs( current - rounded ) < 0.01f`: there `ZoomByStepFloat`
repeats the function with every `float` value rounded to IEEE 754 binary32
(`toFloat`), and the statement about factors off the grid is made on it.
-/

namespace Sigil

/-! ## Constants (MainWindow.cpp, lines 74-80) -/

/-- Source: `const float ZOOM_STEP = 0.1f;` -/
def ZOOM_STEP : ℚ := 1 / 10

/-- Source: `const float ZOOM_MIN = 0.09f;` -/
def ZOOM_MIN : ℚ := 9 / 100

/-- Source: `const float ZOOM_MAX = 5.0f;` -/
def ZOOM_MAX : ℚ := 5

/-- Source: `const float ZOOM_NORMAL = 1.0f;` -/
def ZOOM_NORMAL : ℚ := 1

/-- Source: `static const int ZOOM_SLIDER_MIN = 0;` -/
def ZOOM_SLIDER_MIN : ℤ := 0

/-- Source: `static const int ZOOM_SLIDER_MAX = 1000;` -/
def ZOOM_SLIDER_MAX : ℤ := 1000

/-- Source: `static const int ZOOM_SLIDER_MIDDLE = 500;` -/
def ZOOM_SLIDER_MIDDLE : ℤ := 500

/-! ## Library helpers the zoom code calls -/

/-- The C++ conversion `int( x )` of a real number: truncation towards zero. -/
def toInt (x : ℚ) : ℤ :=
  if 0 ≤ x then ⌊x⌋ else ⌈x⌉

/-- Modelled from the spec: `qRound` belongs to the Qt library, which is not
among the sources; the spec says "Rounding: nearest integer". The body is the
one of Qt 4's `qRound( qreal d )`:
`d >= 0.0 ? int(d + 0.5) : int(d - int(d-1) + 0.5) + int(d-1)`. -/
def qRound (d : ℚ) : ℤ :=
  if d ≥ 0 then toInt (d + 1 / 2)
  else toInt (d - (toInt (d - 1) : ℚ) + 1 / 2) + toInt (d - 1)

/-- Modelled from the spec: `qFuzzyCompare` belongs to the Qt library, which is
not among the sources; the spec says "numerically within floating-point
tolerance". The body is the one of Qt 4's `float` overload:
`qAbs(p1 - p2) <= 0.00001f * qMin(qAbs(p1), qAbs(p2))`. -/
def qFuzzyCompare (p1 p2 : ℚ) : Prop :=
  |p1 - p2| ≤ (1 / 100000) * min |p1| |p2|

instance (p1 p2 : ℚ) : Decidable (qFuzzyCompare p1 p2) := by
  unfold qFuzzyCompare
  infer_instance

/-- Modelled from the spec: `Utility::RoundToOneDecimal` lives in
`Misc/Utility.cpp`, which is not among the sources; the spec says "Round
`current` to one decimal place". This instance rounds to the nearest tenth
and breaks ties upwards. -/
def RoundToOneDecimal (number : ℚ) : ℚ :=
  (⌊number * 10 + 1 / 2⌋ : ℚ) / 10

/-- What `ZoomByStep` needs from `Utility::RoundToOneDecimal`: the result is a
multiple of one tenth and lies at most half a tenth from the argument. Ties
may break either way. -/
def RoundsToNearestTenth (round : ℚ → ℚ) : Prop :=
  ∀ x : ℚ, (∃ n : ℤ, round x = (n : ℚ) / 10) ∧ |round x - x| ≤ 1 / 20

/-! ## The content tab, as far as zooming sees it -/

/-- The part of a `ContentTab` the zoom code reads and writes: the value
`GetZoomFactor()` returns and `SetZoomFactor( f )` stores. -/
structure ContentTab where
  /-- The value returned by `GetZoomFactor()`. -/
  zoomFactor : ℚ
  deriving DecidableEq, Repr

/-- The call `tab.GetZoomFactor()`. -/
def ContentTab.GetZoomFactor (tab : ContentTab) : ℚ :=
  tab.zoomFactor

/-- The call `tab.SetZoomFactor( new_zoom_factor )`. -/
def ContentTab.SetZoomFactor (tab : ContentTab) (new_zoom_factor : ℚ) : ContentTab :=
  { tab with zoomFactor := new_zoom_factor }

/-! ## The conversions (MainWindow.cpp, lines 2129-2187) -/

/-- Source: `int MainWindow::ZoomFactorToSliderRange( float zoom_factor )`. -/
def ZoomFactorToSliderRange (zoom_factor : ℚ) : ℤ :=
  if qFuzzyCompare zoom_factor ZOOM_NORMAL then
    ZOOM_SLIDER_MIDDLE
  else if zoom_factor < ZOOM_NORMAL then
    let range : ℚ := ZOOM_NORMAL - ZOOM_MIN
    let normalized_value : ℚ := zoom_factor - ZOOM_MIN
    let range_proportion : ℚ := normalized_value / range
    ZOOM_SLIDER_MIN + qRound (range_proportion * ((ZOOM_SLIDER_MIDDLE - ZOOM_SLIDER_MIN : ℤ) : ℚ))
  else
    let range : ℚ := ZOOM_MAX - ZOOM_NORMAL
    let normalized_value : ℚ := zoom_factor - ZOOM_NORMAL
    let range_proportion : ℚ := normalized_value / range
    ZOOM_SLIDER_MIDDLE + qRound (range_proportion * (ZOOM_SLIDER_MIDDLE : ℚ))

/-- Source: `float MainWindow::SliderRangeToZoomFactor( int slider_range_value )`. -/
def SliderRangeToZoomFactor (slider_range_value : ℤ) : ℚ :=
  if slider_range_value = ZOOM_SLIDER_MIDDLE then
    ZOOM_NORMAL
  else if slider_range_value < ZOOM_SLIDER_MIDDLE then
    let range : ℚ := ((ZOOM_SLIDER_MIDDLE - ZOOM_SLIDER_MIN : ℤ) : ℚ)
    let normalized_value : ℚ := ((slider_range_value - ZOOM_SLIDER_MIN : ℤ) : ℚ)
    let range_proportion : ℚ := normalized_value / range
    ZOOM_MIN + range_proportion * (ZOOM_NORMAL - ZOOM_MIN)
  else
    let range : ℚ := ((ZOOM_SLIDER_MAX - ZOOM_SLIDER_MIDDLE : ℤ) : ℚ)
    let normalized_value : ℚ := ((slider_range_value - ZOOM_SLIDER_MIDDLE : ℤ) : ℚ)
    let range_proportion : ℚ := normalized_value / range
    ZOOM_NORMAL + range_proportion * (ZOOM_MAX - ZOOM_NORMAL)

/-! ## The zoom operations

`m_TabManager.GetCurrentContentTab()` is `none` when there is no tab
(`&tab == NULL` in the source) and `some tab` otherwise; every operation
returns the current tab as it is after the call. -/

/-- Source: `void MainWindow::ZoomByFactor( float new_zoom_factor )` (lines 2114-2126). -/
def ZoomByFactor (new_zoom_factor : ℚ) (current : Option ContentTab) : Option ContentTab :=
  match current with
  | none => none
  | some tab =>
    if new_zoom_factor > ZOOM_MAX ∨ new_zoom_factor < ZOOM_MIN then
      some tab
    else
      some (tab.SetZoomFactor new_zoom_factor)

/-- Source: `void MainWindow::ZoomByStep( bool zoom_in )` (lines 2083-2111), with
`Utility::RoundToOneDecimal` passed as `round`, in exact arithmetic: the test
`qAbs( current - rounded ) < 0.01f` is read as `|c - r| < 1/100`. Within about
`1e-7` of that threshold the `float` comparison can differ; `ZoomByStepFloat`
is the single-precision reading. -/
def ZoomByStep (round : ℚ → ℚ) (zoom_in : Bool) (current : Option ContentTab) :
    Option ContentTab :=
  match current with
  | none => none
  | some tab =>
    let zoom_stepping : ℚ := if zoom_in then ZOOM_STEP else - ZOOM_STEP
    let rounding_helper : ℚ := if zoom_in then 5 / 100 else - (5 / 100)
    let current_zoom_factor : ℚ := tab.GetZoomFactor
    let rounded_zoom_factor : ℚ := round (current_zoom_factor + rounding_helper)
    if |current_zoom_factor - rounded_zoom_factor| < 1 / 100 then
      ZoomByFactor (round (current_zoom_factor + zoom_stepping)) (some tab)
    else
      ZoomByFactor rounded_zoom_factor (some tab)

/-- Source: `void MainWindow::ZoomIn()` (line 530). -/
def ZoomIn (round : ℚ → ℚ) (current : Option ContentTab) : Option ContentTab :=
  ZoomByStep round true current

/-- Source: `void MainWindow::ZoomOut()` (line 536). -/
def ZoomOut (round : ℚ → ℚ) (current : Option ContentTab) : Option ContentTab :=
  ZoomByStep round false current

/-- Source: `void MainWindow::ZoomReset()` (line 542). -/
def ZoomReset (current : Option ContentTab) : Option ContentTab :=
  ZoomByFactor ZOOM_NORMAL current

/-- Source: `void MainWindow::SliderZoom( int slider_value )` (lines 1725-1739). -/
def SliderZoom (slider_value : ℤ) (current : Option ContentTab) : Option ContentTab :=
  match current with
  | none => none
  | some tab =>
    let new_zoom_factor : ℚ := SliderRangeToZoomFactor slider_value
    let current_zoom_factor : ℚ := tab.GetZoomFactor
    if ¬ qFuzzyCompare new_zoom_factor current_zoom_factor then
      ZoomByFactor new_zoom_factor (some tab)
    else
      some tab

/-! ## View state and action flags (MainWindow.cpp, lines 731-753, 1111-1150, 1284-1708)

The main window keeps the view state `m_ViewState` and the flags of its
menu and toolbar actions. The active tab is outside the window: every
operation takes it as an argument, `none` when there is no tab
(`&tab == NULL` in the source). Widgets that are not actions (zoom slider and
label, cursor label, heading toolbar, the find-and-replace panel) and the
signals a tab may emit while it is asked to switch are left out. -/

/-- Modelled from the spec: the enumeration `MainWindow::ViewState` is
declared in `MainWindow.h`, which is not among the sources; the spec lists
"one of `Unknown`, `BookView`, `PreviewView` (split), `CodeView`". -/
inductive ViewState where
  | ViewState_Unknown
  | ViewState_BookView
  | ViewState_PreviewView
  | ViewState_CodeView
  deriving DecidableEq, Repr

/-- Modelled from the spec: the enumeration `Resource::ResourceType` is
declared in `ResourceObjects/Resource.h`, which is not among the sources. The
first seven values are the ones the source names; the remaining three stand
for the spec's "static (Image/other)" kinds. -/
inductive ResourceType where
  | HTMLResourceType
  | XMLResourceType
  | XPGTResourceType
  | OPFResourceType
  | NCXResourceType
  | TextResourceType
  | CSSResourceType
  | ImageResourceType
  | FontResourceType
  | GenericResourceType
  deriving DecidableEq, Repr

/-- The two flags of a `QAction` (or the enabled flag of a menu) the window
sets. -/
structure Action where
  /-- The flag set by `setEnabled`. -/
  enabled : Bool
  /-- The flag set by `setChecked`. -/
  checked : Bool
  deriving DecidableEq, Repr

/-- The call `action->setEnabled( b )`. -/
def Action.setEnabled (a : Action) (b : Bool) : Action :=
  { a with enabled := b }

/-- The call `action->setChecked( b )`. -/
def Action.setChecked (a : Action) (b : Bool) : Action :=
  { a with checked := b }

/-- The actions of `ui` that `SetViewState`, `UpdateViewState`, the five
`SetStateActions...` functions and `UpdateUIOnTabChanges` touch. -/
structure Ui where
  actionBookView : Action
  actionSplitView : Action
  actionCodeView : Action
  actionUndo : Action
  actionRedo : Action
  actionCut : Action
  actionCopy : Action
  actionPaste : Action
  actionBold : Action
  actionItalic : Action
  actionUnderline : Action
  actionStrikethrough : Action
  actionAlignLeft : Action
  actionCenter : Action
  actionAlignRight : Action
  actionJustify : Action
  actionDecreaseIndent : Action
  actionIncreaseIndent : Action
  actionInsertBulletedList : Action
  actionInsertNumberedList : Action
  actionRemoveFormatting : Action
  menuHeadings : Action
  actionHeading1 : Action
  actionHeading2 : Action
  actionHeading3 : Action
  actionHeading4 : Action
  actionHeading5 : Action
  actionHeading6 : Action
  actionHeadingNormal : Action
  actionInsertImage : Action
  actionSplitChapter : Action
  actionInsertClosingTag : Action
  actionInsertSGFChapterMarker : Action
  actionSplitOnSGFChapterMarkers : Action
  actionFind : Action
  actionFindNext : Action
  actionFindPrevious : Action
  actionReplaceNext : Action
  actionReplacePrevious : Action
  actionReplaceAll : Action
  actionCount : Action
  actionGoToLine : Action
  actionPrintPreview : Action
  actionPrint : Action
  actionOpenLink : Action
  actionAddToIndex : Action
  actionMarkForIndex : Action
  deriving DecidableEq, Repr

/-- The active `ContentTab` as the view-state code sees it: the type of its
loaded resource, whether `dynamic_cast<FlowTab *>` succeeds, the answer of
`FlowTab::SetViewState` to each requested state, and the answers it gives to
`UpdateUIOnTabChanges`. The zoom factor of the tab is modelled by
`ContentTab`. -/
structure CurrentContentTab where
  /-- The value of `tab.GetLoadedResource().Type()`. -/
  resourceType : ResourceType
  /-- Whether `dynamic_cast<FlowTab *>(&tab)` is not null. -/
  isFlowTab : Bool
  /-- The answer of `ftab->SetViewState( view_state )`: `true` when the tab
  enters the state, `false` when it refuses. -/
  SetViewState : ViewState → Bool
  PrintEnabled : Bool
  CutEnabled : Bool
  CopyEnabled : Bool
  PasteEnabled : Bool
  InsertClosingTagEnabled : Bool
  OpenLinkEnabled : Bool
  AddToIndexEnabled : Bool
  MarkForIndexEnabled : Bool
  BoldChecked : Bool
  ItalicChecked : Bool
  UnderlineChecked : Bool
  StrikethroughChecked : Bool
  BulletListChecked : Bool
  NumberListChecked : Bool
  RemoveFormattingEnabled : Bool

/-- The state of the main window the view-state code reads and writes. -/
structure MainWindow where
  /-- The member `m_ViewState`. -/
  m_ViewState : ViewState
  /-- The action flags of the member `ui`. -/
  ui : Ui
  deriving DecidableEq, Repr

open ViewState ResourceType

/-- Source: `MainWindow::ViewState MainWindow::GetViewState()` (line 1148). -/
def GetViewState (w : MainWindow) : ViewState :=
  w.m_ViewState

/-- Source: `void MainWindow::UpdateUIOnTabChanges()` (lines 1336-1371), for the
action flags. -/
def UpdateUIOnTabChanges (current : Option CurrentContentTab) (w : MainWindow) : MainWindow :=
  match current with
  | none => w
  | some tab =>
    { w with ui := { w.ui with
        actionPrintPreview := w.ui.actionPrintPreview.setEnabled tab.PrintEnabled,
        actionPrint := w.ui.actionPrint.setEnabled tab.PrintEnabled,
        actionCut := w.ui.actionCut.setEnabled tab.CutEnabled,
        actionCopy := w.ui.actionCopy.setEnabled tab.CopyEnabled,
        actionPaste := w.ui.actionPaste.setEnabled tab.PasteEnabled,
        actionInsertClosingTag := w.ui.actionInsertClosingTag.setEnabled tab.InsertClosingTagEnabled,
        actionOpenLink := w.ui.actionOpenLink.setEnabled tab.OpenLinkEnabled,
        actionAddToIndex := w.ui.actionAddToIndex.setEnabled tab.AddToIndexEnabled,
        actionMarkForIndex := w.ui.actionMarkForIndex.setEnabled tab.MarkForIndexEnabled,
        actionBold := w.ui.actionBold.setChecked tab.BoldChecked,
        actionItalic := w.ui.actionItalic.setChecked tab.ItalicChecked,
        actionUnderline := w.ui.actionUnderline.setChecked tab.UnderlineChecked,
        actionStrikethrough := w.ui.actionStrikethrough.setChecked tab.StrikethroughChecked,
        actionInsertBulletedList := w.ui.actionInsertBulletedList.setChecked tab.BulletListChecked,
        actionInsertNumberedList := w.ui.actionInsertNumberedList.setChecked tab.NumberListChecked,
        actionRemoveFormatting := w.ui.actionRemoveFormatting.setEnabled tab.RemoveFormattingEnabled } }

/-- Source: `void MainWindow::SetStateActionsBookView()` (lines 1394-1455), for the action
flags: the `setEnabled` and `setChecked` calls, then `UpdateUIOnTabChanges()`. -/
def SetStateActionsBookView (current : Option CurrentContentTab) (w : MainWindow) : MainWindow :=
  UpdateUIOnTabChanges current
    { w with ui := { w.ui with
        actionBookView := (w.ui.actionBookView.setEnabled true).setChecked true,
        actionSplitView := (w.ui.actionSplitView.setEnabled true).setChecked false,
        actionCodeView := (w.ui.actionCodeView.setEnabled true).setChecked false,
        actionUndo := w.ui.actionUndo.setEnabled true,
        actionRedo := w.ui.actionRedo.setEnabled true,
        actionCut := w.ui.actionCut.setEnabled true,
        actionCopy := w.ui.actionCopy.setEnabled true,
        actionPaste := w.ui.actionPaste.setEnabled true,
        actionBold := w.ui.actionBold.setEnabled true,
        actionItalic := w.ui.actionItalic.setEnabled true,
        actionUnderline := w.ui.actionUnderline.setEnabled true,
        actionStrikethrough := w.ui.actionStrikethrough.setEnabled true,
        actionAlignLeft := w.ui.actionAlignLeft.setEnabled true,
        actionCenter := w.ui.actionCenter.setEnabled true,
        actionAlignRight := w.ui.actionAlignRight.setEnabled true,
        actionJustify := w.ui.actionJustify.setEnabled true,
        actionDecreaseIndent := w.ui.actionDecreaseIndent.setEnabled true,
        actionIncreaseIndent := w.ui.actionIncreaseIndent.setEnabled true,
        actionInsertBulletedList := w.ui.actionInsertBulletedList.setEnabled true,
        actionInsertNumberedList := w.ui.actionInsertNumberedList.setEnabled true,
        actionRemoveFormatting := w.ui.actionRemoveFormatting.setEnabled true,
        menuHeadings := w.ui.menuHeadings.setEnabled true,
        actionHeading1 := w.ui.actionHeading1.setEnabled true,
        actionHeading2 := w.ui.actionHeading2.setEnabled true,
        actionHeading3 := w.ui.actionHeading3.setEnabled true,
        actionHeading4 := w.ui.actionHeading4.setEnabled true,
        actionHeading5 := w.ui.actionHeading5.setEnabled true,
        actionHeading6 := w.ui.actionHeading6.setEnabled true,
        actionHeadingNormal := w.ui.actionHeadingNormal.setEnabled true,
        actionInsertImage := w.ui.actionInsertImage.setEnabled true,
        actionSplitChapter := w.ui.actionSplitChapter.setEnabled true,
        actionInsertClosingTag := w.ui.actionInsertClosingTag.setEnabled false,
        actionInsertSGFChapterMarker := w.ui.actionInsertSGFChapterMarker.setEnabled true,
        actionSplitOnSGFChapterMarkers := w.ui.actionSplitOnSGFChapterMarkers.setEnabled true,
        actionFind := w.ui.actionFind.setEnabled true,
        actionFindNext := w.ui.actionFindNext.setEnabled true,
        actionFindPrevious := w.ui.actionFindPrevious.setEnabled true,
        actionReplaceNext := w.ui.actionReplaceNext.setEnabled false,
        actionReplacePrevious := w.ui.actionReplacePrevious.setEnabled false,
        actionReplaceAll := w.ui.actionReplaceAll.setEnabled false,
        actionCount := w.ui.actionCount.setEnabled false,
        actionGoToLine := w.ui.actionGoToLine.setEnabled false } }

/-- Source: `void MainWindow::SetStateActionsSplitView()` (lines 1457-1518), for the action
flags: the `setEnabled` and `setChecked` calls, then `UpdateUIOnTabChanges()`. -/
def SetStateActionsSplitView (current : Option CurrentContentTab) (w : MainWindow) : MainWindow :=
  UpdateUIOnTabChanges current
    { w with ui := { w.ui with
        actionBookView := (w.ui.actionBookView.setEnabled true).setChecked false,
        actionSplitView := (w.ui.actionSplitView.setEnabled true).setChecked true,
        actionCodeView := (w.ui.actionCodeView.setEnabled true).setChecked false,
        actionUndo := w.ui.actionUndo.setEnabled false,
        actionRedo := w.ui.actionRedo.setEnabled false,
        actionCut := w.ui.actionCut.setEnabled false,
        actionCopy := w.ui.actionCopy.setEnabled false,
        actionPaste := w.ui.actionPaste.setEnabled false,
        actionBold := w.ui.actionBold.setEnabled false,
        actionItalic := w.ui.actionItalic.setEnabled false,
        actionUnderline := w.ui.actionUnderline.setEnabled false,
        actionStrikethrough := w.ui.actionStrikethrough.setEnabled false,
        actionAlignLeft := w.ui.actionAlignLeft.setEnabled false,
        actionCenter := w.ui.actionCenter.setEnabled false,
        actionAlignRight := w.ui.actionAlignRight.setEnabled false,
        actionJustify := w.ui.actionJustify.setEnabled false,
        actionDecreaseIndent := w.ui.actionDecreaseIndent.setEnabled false,
        actionIncreaseIndent := w.ui.actionIncreaseIndent.setEnabled false,
        actionInsertBulletedList := w.ui.actionInsertBulletedList.setEnabled false,
        actionInsertNumberedList := w.ui.actionInsertNumberedList.setEnabled false,
        actionRemoveFormatting := w.ui.actionRemoveFormatting.setEnabled false,
        menuHeadings := w.ui.menuHeadings.setEnabled false,
        actionHeading1 := w.ui.actionHeading1.setEnabled false,
        actionHeading2 := w.ui.actionHeading2.setEnabled false,
        actionHeading3 := w.ui.actionHeading3.setEnabled false,
        actionHeading4 := w.ui.actionHeading4.setEnabled false,
        actionHeading5 := w.ui.actionHeading5.setEnabled false,
        actionHeading6 := w.ui.actionHeading6.setEnabled false,
        actionHeadingNormal := w.ui.actionHeadingNormal.setEnabled false,
        actionInsertImage := w.ui.actionInsertImage.setEnabled false,
        actionSplitChapter := w.ui.actionSplitChapter.setEnabled false,
        actionInsertClosingTag := w.ui.actionInsertClosingTag.setEnabled false,
        actionInsertSGFChapterMarker := w.ui.actionInsertSGFChapterMarker.setEnabled false,
        actionSplitOnSGFChapterMarkers := w.ui.actionSplitOnSGFChapterMarkers.setEnabled false,
        actionFind := w.ui.actionFind.setEnabled true,
        actionFindNext := w.ui.actionFindNext.setEnabled true,
        actionFindPrevious := w.ui.actionFindPrevious.setEnabled true,
        actionReplaceNext := w.ui.actionReplaceNext.setEnabled false,
        actionReplacePrevious := w.ui.actionReplacePrevious.setEnabled false,
        actionReplaceAll := w.ui.actionReplaceAll.setEnabled false,
        actionCount := w.ui.actionCount.setEnabled false,
        actionGoToLine := w.ui.actionGoToLine.setEnabled false } }

/-- Source: `void MainWindow::SetStateActionsCodeView()` (lines 1520-1581), for the action
flags: the `setEnabled` and `setChecked` calls, then `UpdateUIOnTabChanges()`. -/
def SetStateActionsCodeView (current : Option CurrentContentTab) (w : MainWindow) : MainWindow :=
  UpdateUIOnTabChanges current
    { w with ui := { w.ui with
        actionBookView := (w.ui.actionBookView.setEnabled true).setChecked false,
        actionSplitView := (w.ui.actionSplitView.setEnabled true).setChecked false,
        actionCodeView := (w.ui.actionCodeView.setEnabled true).setChecked true,
        actionUndo := w.ui.actionUndo.setEnabled true,
        actionRedo := w.ui.actionRedo.setEnabled true,
        actionCut := w.ui.actionCut.setEnabled true,
        actionCopy := w.ui.actionCopy.setEnabled true,
        actionPaste := w.ui.actionPaste.setEnabled true,
        actionBold := w.ui.actionBold.setEnabled true,
        actionItalic := w.ui.actionItalic.setEnabled true,
        actionUnderline := w.ui.actionUnderline.setEnabled true,
        actionStrikethrough := w.ui.actionStrikethrough.setEnabled true,
        actionAlignLeft := w.ui.actionAlignLeft.setEnabled false,
        actionCenter := w.ui.actionCenter.setEnabled false,
        actionAlignRight := w.ui.actionAlignRight.setEnabled false,
        actionJustify := w.ui.actionJustify.setEnabled false,
        actionDecreaseIndent := w.ui.actionDecreaseIndent.setEnabled false,
        actionIncreaseIndent := w.ui.actionIncreaseIndent.setEnabled false,
        actionInsertBulletedList := w.ui.actionInsertBulletedList.setEnabled false,
        actionInsertNumberedList := w.ui.actionInsertNumberedList.setEnabled false,
        actionRemoveFormatting := w.ui.actionRemoveFormatting.setEnabled true,
        menuHeadings := w.ui.menuHeadings.setEnabled true,
        actionHeading1 := w.ui.actionHeading1.setEnabled true,
        actionHeading2 := w.ui.actionHeading2.setEnabled true,
        actionHeading3 := w.ui.actionHeading3.setEnabled true,
        actionHeading4 := w.ui.actionHeading4.setEnabled true,
        actionHeading5 := w.ui.actionHeading5.setEnabled true,
        actionHeading6 := w.ui.actionHeading6.setEnabled true,
        actionHeadingNormal := w.ui.actionHeadingNormal.setEnabled true,
        actionInsertImage := w.ui.actionInsertImage.setEnabled true,
        actionSplitChapter := w.ui.actionSplitChapter.setEnabled true,
        actionInsertSGFChapterMarker := w.ui.actionInsertSGFChapterMarker.setEnabled true,
        actionInsertClosingTag := w.ui.actionInsertClosingTag.setEnabled true,
        actionSplitOnSGFChapterMarkers := w.ui.actionSplitOnSGFChapterMarkers.setEnabled true,
        actionFind := w.ui.actionFind.setEnabled true,
        actionFindNext := w.ui.actionFindNext.setEnabled true,
        actionFindPrevious := w.ui.actionFindPrevious.setEnabled true,
        actionReplaceNext := w.ui.actionReplaceNext.setEnabled true,
        actionReplacePrevious := w.ui.actionReplacePrevious.setEnabled true,
        actionReplaceAll := w.ui.actionReplaceAll.setEnabled true,
        actionCount := w.ui.actionCount.setEnabled true,
        actionGoToLine := w.ui.actionGoToLine.setEnabled true } }

/-- Source: `void MainWindow::SetStateActionsRawView()` (lines 1584-1644), for the action
flags: the `setEnabled` and `setChecked` calls, then `UpdateUIOnTabChanges()`. -/
def SetStateActionsRawView (current : Option CurrentContentTab) (w : MainWindow) : MainWindow :=
  UpdateUIOnTabChanges current
    { w with ui := { w.ui with
        actionBookView := (w.ui.actionBookView.setEnabled false).setChecked false,
        actionSplitView := (w.ui.actionSplitView.setEnabled false).setChecked false,
        actionCodeView := (w.ui.actionCodeView.setEnabled false).setChecked false,
        actionUndo := w.ui.actionUndo.setEnabled true,
        actionRedo := w.ui.actionRedo.setEnabled true,
        actionCut := w.ui.actionCut.setEnabled false,
        actionCopy := w.ui.actionCopy.setEnabled false,
        actionPaste := w.ui.actionPaste.setEnabled false,
        actionBold := w.ui.actionBold.setEnabled false,
        actionItalic := w.ui.actionItalic.setEnabled false,
        actionUnderline := w.ui.actionUnderline.setEnabled false,
        actionStrikethrough := w.ui.actionStrikethrough.setEnabled false,
        actionAlignLeft := w.ui.actionAlignLeft.setEnabled false,
        actionCenter := w.ui.actionCenter.setEnabled false,
        actionAlignRight := w.ui.actionAlignRight.setEnabled false,
        actionJustify := w.ui.actionJustify.setEnabled false,
        actionDecreaseIndent := w.ui.actionDecreaseIndent.setEnabled false,
        actionIncreaseIndent := w.ui.actionIncreaseIndent.setEnabled false,
        actionInsertBulletedList := w.ui.actionInsertBulletedList.setEnabled false,
        actionInsertNumberedList := w.ui.actionInsertNumberedList.setEnabled false,
        actionRemoveFormatting := w.ui.actionRemoveFormatting.setEnabled false,
        menuHeadings := w.ui.menuHeadings.setEnabled false,
        actionHeading1 := w.ui.actionHeading1.setEnabled false,
        actionHeading2 := w.ui.actionHeading2.setEnabled false,
        actionHeading3 := w.ui.actionHeading3.setEnabled false,
        actionHeading4 := w.ui.actionHeading4.setEnabled false,
        actionHeading5 := w.ui.actionHeading5.setEnabled false,
        actionHeading6 := w.ui.actionHeading6.setEnabled false,
        actionHeadingNormal := w.ui.actionHeadingNormal.setEnabled false,
        actionInsertImage := w.ui.actionInsertImage.setEnabled false,
        actionSplitChapter := w.ui.actionSplitChapter.setEnabled false,
        actionInsertSGFChapterMarker := w.ui.actionInsertSGFChapterMarker.setEnabled false,
        actionSplitOnSGFChapterMarkers := w.ui.actionSplitOnSGFChapterMarkers.setEnabled false,
        actionFind := w.ui.actionFind.setEnabled true,
        actionFindNext := w.ui.actionFindNext.setEnabled true,
        actionFindPrevious := w.ui.actionFindPrevious.setEnabled true,
        actionReplaceNext := w.ui.actionReplaceNext.setEnabled true,
        actionReplacePrevious := w.ui.actionReplacePrevious.setEnabled true,
        actionReplaceAll := w.ui.actionReplaceAll.setEnabled true,
        actionCount := w.ui.actionCount.setEnabled true,
        actionGoToLine := w.ui.actionGoToLine.setEnabled true } }

/-- Source: `void MainWindow::SetStateActionsStaticView()` (lines 1647-1708), for the action
flags: the `setEnabled` and `setChecked` calls, then `UpdateUIOnTabChanges()`. -/
def SetStateActionsStaticView (current : Option CurrentContentTab) (w : MainWindow) : MainWindow :=
  UpdateUIOnTabChanges current
    { w with ui := { w.ui with
        actionBookView := (w.ui.actionBookView.setEnabled false).setChecked false,
        actionSplitView := (w.ui.actionSplitView.setEnabled false).setChecked false,
        actionCodeView := (w.ui.actionCodeView.setEnabled false).setChecked false,
        actionUndo := w.ui.actionUndo.setEnabled false,
        actionRedo := w.ui.actionRedo.setEnabled false,
        actionCut := w.ui.actionCut.setEnabled false,
        actionCopy := w.ui.actionCopy.setEnabled false,
        actionPaste := w.ui.actionPaste.setEnabled false,
        actionBold := w.ui.actionBold.setEnabled false,
        actionItalic := w.ui.actionItalic.setEnabled false,
        actionUnderline := w.ui.actionUnderline.setEnabled false,
        actionStrikethrough := w.ui.actionStrikethrough.setEnabled false,
        actionAlignLeft := w.ui.actionAlignLeft.setEnabled false,
        actionCenter := w.ui.actionCenter.setEnabled false,
        actionAlignRight := w.ui.actionAlignRight.setEnabled false,
        actionJustify := w.ui.actionJustify.setEnabled false,
        actionDecreaseIndent := w.ui.actionDecreaseIndent.setEnabled false,
        actionIncreaseIndent := w.ui.actionIncreaseIndent.setEnabled false,
        actionInsertBulletedList := w.ui.actionInsertBulletedList.setEnabled false,
        actionInsertNumberedList := w.ui.actionInsertNumberedList.setEnabled false,
        actionRemoveFormatting := w.ui.actionRemoveFormatting.setEnabled false,
        menuHeadings := w.ui.menuHeadings.setEnabled false,
        actionHeading1 := w.ui.actionHeading1.setEnabled false,
        actionHeading2 := w.ui.actionHeading2.setEnabled false,
        actionHeading3 := w.ui.actionHeading3.setEnabled false,
        actionHeading4 := w.ui.actionHeading4.setEnabled false,
        actionHeading5 := w.ui.actionHeading5.setEnabled false,
        actionHeading6 := w.ui.actionHeading6.setEnabled false,
        actionHeadingNormal := w.ui.actionHeadingNormal.setEnabled false,
        actionInsertImage := w.ui.actionInsertImage.setEnabled false,
        actionSplitChapter := w.ui.actionSplitChapter.setEnabled false,
        actionInsertSGFChapterMarker := w.ui.actionInsertSGFChapterMarker.setEnabled false,
        actionSplitOnSGFChapterMarkers := w.ui.actionSplitOnSGFChapterMarkers.setEnabled false,
        actionFind := w.ui.actionFind.setEnabled false,
        actionFindNext := w.ui.actionFindNext.setEnabled false,
        actionFindPrevious := w.ui.actionFindPrevious.setEnabled false,
        actionReplaceNext := w.ui.actionReplaceNext.setEnabled false,
        actionReplacePrevious := w.ui.actionReplacePrevious.setEnabled false,
        actionReplaceAll := w.ui.actionReplaceAll.setEnabled false,
        actionCount := w.ui.actionCount.setEnabled false,
        actionGoToLine := w.ui.actionGoToLine.setEnabled false } }

/-- Source: `bool MainWindow::UpdateViewState(bool set_tab_state)`
(lines 1284-1333). The result is the returned flag and the window after the
call. -/
def UpdateViewState (set_tab_state : Bool) (current : Option CurrentContentTab)
    (w : MainWindow) : Bool × MainWindow :=
  match current with
  | none => (false, w)
  | some tab =>
    if tab.resourceType = HTMLResourceType then
      if set_tab_state && tab.isFlowTab && !(tab.SetViewState w.m_ViewState) then
        (false, w)
      else if w.m_ViewState = ViewState_CodeView then
        (true, SetStateActionsCodeView current w)
      else if w.m_ViewState = ViewState_PreviewView then
        (true, SetStateActionsSplitView current w)
      else
        let w1 : MainWindow :=
          if w.m_ViewState ≠ ViewState_BookView then
            { w with m_ViewState := ViewState_BookView }
          else w
        (true, SetStateActionsBookView current w1)
    else if tab.resourceType = XMLResourceType ∨
        tab.resourceType = XPGTResourceType ∨
        tab.resourceType = OPFResourceType ∨
        tab.resourceType = NCXResourceType ∨
        tab.resourceType = TextResourceType ∨
        tab.resourceType = CSSResourceType then
      (true, SetStateActionsRawView current w)
    else
      (true, SetStateActionsStaticView current w)

/-- Source: `void MainWindow::SetViewState(MainWindow::ViewState view_state)`
(lines 731-748). -/
def SetViewState (view_state : ViewState) (current : Option CurrentContentTab)
    (w : MainWindow) : MainWindow :=
  let view_state : ViewState :=
    if view_state = ViewState_Unknown then ViewState_BookView else view_state
  let old_view_state : ViewState := w.m_ViewState
  let set_tab_state : Bool := decide (w.m_ViewState ≠ view_state)
  let w1 : MainWindow := { w with m_ViewState := view_state }
  let r : Bool × MainWindow := UpdateViewState set_tab_state current w1
  if !r.1 then
    { r.2 with
      m_ViewState := old_view_state,
      ui := { r.2.ui with
        actionBookView := r.2.ui.actionBookView.setChecked false,
        actionSplitView := r.2.ui.actionSplitView.setChecked false,
        actionCodeView := r.2.ui.actionCodeView.setChecked true } }
  else
    r.2

/-- Source: `void MainWindow::SetTabViewState()` (line 751). -/
def SetTabViewState (current : Option CurrentContentTab) (w : MainWindow) : MainWindow :=
  SetViewState w.m_ViewState current w

/-- Source: `void MainWindow::ToggleViewState()` (lines 1111-1128). -/
def ToggleViewState (current : Option CurrentContentTab) (w : MainWindow) : MainWindow :=
  match current with
  | none => w
  | some tab =>
    if tab.resourceType = HTMLResourceType then
      if w.m_ViewState = ViewState_CodeView then
        SetViewState ViewState_BookView current w
      else
        SetViewState ViewState_CodeView current w
    else
      w

/-- Source: `void MainWindow::BookView()` (line 1130). -/
def BookView (current : Option CurrentContentTab) (w : MainWindow) : MainWindow :=
  SetViewState ViewState_BookView current w

/-- Source: `void MainWindow::SplitView()` (line 1136). -/
def SplitView (current : Option CurrentContentTab) (w : MainWindow) : MainWindow :=
  SetViewState ViewState_PreviewView current w

/-- Source: `void MainWindow::CodeView()` (line 1142). -/
def CodeView (current : Option CurrentContentTab) (w : MainWindow) : MainWindow :=
  SetViewState ViewState_CodeView current w

/-- Source: `void MainWindow::UpdateUiWhenTabsSwitch()` (lines 1374-1382). The
call `UpdateViewState()` uses the default argument declared in
`MainWindow.h`, which is not among the sources; it is passed as
`default_set_tab_state`. -/
def UpdateUiWhenTabsSwitch (default_set_tab_state : Bool)
    (current : Option CurrentContentTab) (w : MainWindow) : MainWindow :=
  match current with
  | none => w
  | some _ => (UpdateViewState default_set_tab_state current w).2

/-- The slots connected to the signal `TabManager::TabChanged` (lines
2924-2937) that touch the modelled state, in connection order:
`UpdateUIOnTabChanges`, `UpdateUiWhenTabsSwitch`, `SetTabViewState`. -/
def TabChanged (default_set_tab_state : Bool) (current : Option CurrentContentTab)
    (w : MainWindow) : MainWindow :=
  SetTabViewState current
    (UpdateUiWhenTabsSwitch default_set_tab_state current
      (UpdateUIOnTabChanges current w))

/-- Source: `void MainWindow::OpenResource(...)` (lines 251-270). The call
`m_TabManager.OpenResource` is outside the sources: `tab_changed` says
whether it emits `TabChanged`, `tab_during` is the current tab while the
connected slots run, and `current` is the current tab when it returns. -/
def OpenResource (view_state : ViewState) (tab_changed : Bool)
    (default_set_tab_state : Bool) (tab_during : Option CurrentContentTab)
    (current : Option CurrentContentTab) (w : MainWindow) : MainWindow :=
  let vs : ViewState :=
    if view_state ≠ ViewState_Unknown then view_state else w.m_ViewState
  let w1 : MainWindow :=
    if tab_changed then TabChanged default_set_tab_state tab_during w else w
  if vs ≠ w1.m_ViewState then SetViewState vs current w1 else w1

/-- One call on the main window that may change the view state, with the
arguments the call receives. -/
inductive ViewCall where
  | SetViewState (view_state : ViewState)
  | SetTabViewState
  | ToggleViewState
  | BookView
  | SplitView
  | CodeView
  | OpenResource (view_state : ViewState) (tab_changed : Bool)
      (default_set_tab_state : Bool) (tab_during : Option CurrentContentTab)

/-- The window after one call, made while `current` is the active tab. -/
def ViewCall.run (call : ViewCall) (current : Option CurrentContentTab)
    (w : MainWindow) : MainWindow :=
  match call with
  | .SetViewState view_state => Sigil.SetViewState view_state current w
  | .SetTabViewState => Sigil.SetTabViewState current w
  | .ToggleViewState => Sigil.ToggleViewState current w
  | .BookView => Sigil.BookView current w
  | .SplitView => Sigil.SplitView current w
  | .CodeView => Sigil.CodeView current w
  | .OpenResource view_state tab_changed default_set_tab_state tab_during =>
    Sigil.OpenResource view_state tab_changed default_set_tab_state tab_during current w

/-- The window after a sequence of calls, each made with its own active
tab (or none). -/
def runCalls (calls : List (ViewCall × Option CurrentContentTab)) (w : MainWindow) :
    MainWindow :=
  calls.foldl (fun acc c => c.1.run c.2 acc) w

/-- The window as the member initialisers of the constructor leave it
(line 123: `m_ViewState( MainWindow::ViewState_BookView )`), with the action
flags `ui.setupUi` produced. -/
def constructed (ui : Ui) : MainWindow :=
  { m_ViewState := ViewState_BookView, ui := ui }

/-! ## Recent files (MainWindow.cpp, lines 2242-2272)

The list `s_RecentFiles` is shared by all windows; `MAX_RECENT_FILES` is
declared in `MainWindow.h`, which is not among the sources, and is passed as a
parameter. The window title and the menu actions refreshed by
`UpdateRecentFileActions` are left out. -/

/-- The two members `UpdateUiWithCurrentFile` writes. -/
structure RecentFiles where
  /-- The member `m_CurrentFilePath`. -/
  m_CurrentFilePath : String
  /-- The static member `s_RecentFiles`. -/
  s_RecentFiles : List String
  deriving DecidableEq, Repr

/-- The loop `while ( s_RecentFiles.size() > MAX_RECENT_FILES )
s_RecentFiles.removeLast();` (lines 2259-2262). -/
def removeLastWhileOver (MAX_RECENT_FILES : ℕ) (s_RecentFiles : List String) : List String :=
  if s_RecentFiles.length > MAX_RECENT_FILES then
    removeLastWhileOver MAX_RECENT_FILES s_RecentFiles.dropLast
  else
    s_RecentFiles
termination_by s_RecentFiles.length
decreasing_by
  simp only [List.length_dropLast]
  omega

/-- Source: `void MainWindow::UpdateUiWithCurrentFile( const QString &fullfilepath )`
(lines 2242-2272), for `m_CurrentFilePath` and `s_RecentFiles`: `removeAll`,
`prepend`, then the trimming loop. -/
def UpdateUiWithCurrentFile (MAX_RECENT_FILES : ℕ) (fullfilepath : String)
    (st : RecentFiles) : RecentFiles :=
  let m_CurrentFilePath : String := fullfilepath
  if m_CurrentFilePath = "" then
    { st with m_CurrentFilePath := m_CurrentFilePath }
  else
    let removed : List String := st.s_RecentFiles.filter (fun f => f ≠ m_CurrentFilePath)
    let prepended : List String := m_CurrentFilePath :: removed
    { m_CurrentFilePath := m_CurrentFilePath,
      s_RecentFiles := removeLastWhileOver MAX_RECENT_FILES prepended }

/-! ## Single precision: the on-grid test of `ZoomByStep`

`ZoomByStep` decides between its two branches by the `float` comparison
`qAbs( current - rounded ) < 0.01f`. Close to the threshold the outcome depends
on how `0.01f`, the tenths and the difference are rounded to single precision,
so the definitions below repeat `ZoomByStep` and `ZoomByFactor` with every
`float` value rounded to IEEE 754 binary32. -/

/-- Rounding of a real to the nearest integer, ties to the even one. -/
def roundHalfEven (q : ℚ) : ℤ :=
  if q - (⌊q⌋ : ℚ) < 1 / 2 then ⌊q⌋
  else if 1 / 2 < q - (⌊q⌋ : ℚ) then ⌊q⌋ + 1
  else if ⌊q⌋ % 2 = 0 then ⌊q⌋
  else ⌊q⌋ + 1

/-- The `float` nearest to a real: IEEE 754 binary32 (24 significant bits),
round to nearest, ties to even, for the normal range (no overflow and no
subnormal values, which the zoom code never reaches). -/
def toFloat (x : ℚ) : ℚ :=
  if x = 0 then 0
  else
    let ulp : ℚ := (2 : ℚ) ^ (Int.log 2 |x| - 23)
    (roundHalfEven (x / ulp) : ℚ) * ulp

/-- The two-segment linear law of `ZoomFactorToSliderRange` before rounding:
`[0.09, 1.0]` is sent linearly onto `[0, 500]` and `[1.0, 5.0]` onto
`[500, 1000]`. It is used only to state lemmas about the source function. -/
def sliderLaw (zoom_factor : ℚ) : ℚ :=
  if zoom_factor < 1 then (zoom_factor - 9 / 100) * (50000 / 91)
  else 500 + (zoom_factor - 1) * 125

/-- The invariant of the zoom state: there is an active tab and its zoom
factor lies in `[ZOOM_MIN, ZOOM_MAX]`. -/
def zoomFactorLegal : Option ContentTab → Prop
  | none => False
  | some tab => ZOOM_MIN ≤ tab.GetZoomFactor ∧ tab.GetZoomFactor ≤ ZOOM_MAX

instance (current : Option ContentTab) : Decidable (zoomFactorLegal current) := by
  cases current <;> unfold zoomFactorLegal <;> infer_instance

/-- An action that is neither enabled nor checked. -/
def Action.off : Action :=
  { enabled := false, checked := false }

/-- Example action flags: every action disabled and unchecked. -/
def Ui.allOff : Ui :=
  { actionBookView := Action.off,
    actionSplitView := Action.off,
    actionCodeView := Action.off,
    actionUndo := Action.off,
    actionRedo := Action.off,
    actionCut := Action.off,
    actionCopy := Action.off,
    actionPaste := Action.off,
    actionBold := Action.off,
    actionItalic := Action.off,
    actionUnderline := Action.off,
    actionStrikethrough := Action.off,
    actionAlignLeft := Action.off,
    actionCenter := Action.off,
    actionAlignRight := Action.off,
    actionJustify := Action.off,
    actionDecreaseIndent := Action.off,
    actionIncreaseIndent := Action.off,
    actionInsertBulletedList := Action.off,
    actionInsertNumberedList := Action.off,
    actionRemoveFormatting := Action.off,
    menuHeadings := Action.off,
    actionHeading1 := Action.off,
    actionHeading2 := Action.off,
    actionHeading3 := Action.off,
    actionHeading4 := Action.off,
    actionHeading5 := Action.off,
    actionHeading6 := Action.off,
    actionHeadingNormal := Action.off,
    actionInsertImage := Action.off,
    actionSplitChapter := Action.off,
    actionInsertClosingTag := Action.off,
    actionInsertSGFChapterMarker := Action.off,
    actionSplitOnSGFChapterMarkers := Action.off,
    actionFind := Action.off,
    actionFindNext := Action.off,
    actionFindPrevious := Action.off,
    actionReplaceNext := Action.off,
    actionReplacePrevious := Action.off,
    actionReplaceAll := Action.off,
    actionCount := Action.off,
    actionGoToLine := Action.off,
    actionPrintPreview := Action.off,
    actionPrint := Action.off,
    actionOpenLink := Action.off,
    actionAddToIndex := Action.off,
    actionMarkForIndex := Action.off }

/-- Example tab: a tab of the given resource type that is a `FlowTab` exactly
when the resource is HTML, answers `FlowTab::SetViewState` by `answer`, and
reports every queried flag as `false`. -/
def exampleTab (resourceType : ResourceType) (answer : ViewState → Bool) :
    CurrentContentTab :=
  { resourceType := resourceType,
    isFlowTab := decide (resourceType = HTMLResourceType),
    SetViewState := answer,
    PrintEnabled := false,
    CutEnabled := false,
    CopyEnabled := false,
    PasteEnabled := false,
    InsertClosingTagEnabled := false,
    OpenLinkEnabled := false,
    AddToIndexEnabled := false,
    MarkForIndexEnabled := false,
    BoldChecked := false,
    ItalicChecked := false,
    UnderlineChecked := false,
    StrikethroughChecked := false,
    BulletListChecked := false,
    NumberListChecked := false,
    RemoveFormattingEnabled := false }

/-- The state `SetViewState( view_state )` requests: `ViewState_Unknown` is
replaced by `ViewState_BookView` (lines 733-735). -/
def requestedViewState (view_state : ViewState) : ViewState :=
  if view_state = ViewState_Unknown then ViewState_BookView else view_state

/-- The flag `UpdateViewState` returns to `SetViewState( view_state )`
(line 740): `false` is the failure `SetViewState` recovers from. -/
def updateSucceeds (view_state : ViewState) (current : Option CurrentContentTab)
    (w : MainWindow) : Bool :=
  (UpdateViewState (decide (w.m_ViewState ≠ requestedViewState view_state)) current
    { w with m_ViewState := requestedViewState view_state }).1

/-- Example window: the constructed window after `SetViewState` entered
BookView on an accepting HTML tab, so that the Book-view action is the
checked one. -/
def exampleBookViewWindow : MainWindow :=
  SetViewState ViewState_BookView (some (exampleTab HTMLResourceType (fun _ => true)))
    (constructed Ui.allOff)

/-- The enabled flags of Undo and Redo. -/
def undoRedoEnabled (ui : Ui) : List Bool :=
  [ui.actionUndo.enabled, ui.actionRedo.enabled]

/-- The enabled flags of Cut, Copy and Paste. -/
def cutCopyPasteEnabled (ui : Ui) : List Bool :=
  [ui.actionCut.enabled, ui.actionCopy.enabled, ui.actionPaste.enabled]

/-- The enabled flags of the rich-formatting actions, in this order: bold,
italic, underline, strikethrough; align left, center, align right, justify;
bulleted list, numbered list; the headings menu, headings 1 to 6 and the
normal heading. -/
def richFormattingEnabled (ui : Ui) : List Bool :=
  [ui.actionBold.enabled, ui.actionItalic.enabled, ui.actionUnderline.enabled,
   ui.actionStrikethrough.enabled,
   ui.actionAlignLeft.enabled, ui.actionCenter.enabled, ui.actionAlignRight.enabled,
   ui.actionJustify.enabled,
   ui.actionInsertBulletedList.enabled, ui.actionInsertNumberedList.enabled,
   ui.menuHeadings.enabled, ui.actionHeading1.enabled, ui.actionHeading2.enabled,
   ui.actionHeading3.enabled, ui.actionHeading4.enabled, ui.actionHeading5.enabled,
   ui.actionHeading6.enabled, ui.actionHeadingNormal.enabled]

/-- The enabled flags of Find, FindNext and FindPrevious. -/
def findEnabled (ui : Ui) : List Bool :=
  [ui.actionFind.enabled, ui.actionFindNext.enabled, ui.actionFindPrevious.enabled]

/-- The enabled flags of ReplaceNext, ReplacePrevious, ReplaceAll, Count and
GoToLine. -/
def replaceEnabled (ui : Ui) : List Bool :=
  [ui.actionReplaceNext.enabled, ui.actionReplacePrevious.enabled,
   ui.actionReplaceAll.enabled, ui.actionCount.enabled, ui.actionGoToLine.enabled]

/-- What the tab reports for Cut, Copy and Paste. -/
def CurrentContentTab.cutCopyPaste (tab : CurrentContentTab) : List Bool :=
  [tab.CutEnabled, tab.CopyEnabled, tab.PasteEnabled]

/-- The content kinds of the spec: HTML, raw (XML, XPGT, OPF, NCX, Text, CSS)
and static (everything else), as `UpdateViewState` tells them apart. -/
inductive ContentKind where
  | HTML
  | Raw
  | Static
  deriving DecidableEq, Repr

/-- The content kind of a resource type, following the branches of
`UpdateViewState` (lines 1292, 1319-1324, 1328). -/
def contentKind (type : ResourceType) : ContentKind :=
  if type = HTMLResourceType then ContentKind.HTML
  else if type = XMLResourceType ∨ type = XPGTResourceType ∨ type = OPFResourceType ∨
      type = NCXResourceType ∨ type = TextResourceType ∨ type = CSSResourceType then
    ContentKind.Raw
  else ContentKind.Static

/-- The flags of the action-set table that do not depend on what the tab
reports, as the code derives them: Undo/Redo, rich formatting, Find,
Replace/Count/GoToLine, for a content kind and the view state the window ends
in. -/
def derivedFlags (kind : ContentKind) (view_state : ViewState) :
    List Bool × List Bool × List Bool × List Bool :=
  match kind, view_state with
  | ContentKind.HTML, ViewState_CodeView =>
    ([true, true],
     [true, true, true, true, false, false, false, false, false, false,
      true, true, true, true, true, true, true, true],
     [true, true, true], [true, true, true, true, true])
  | ContentKind.HTML, ViewState_PreviewView =>
    ([false, false], List.replicate 18 false, [true, true, true], List.replicate 5 false)
  | ContentKind.HTML, _ =>
    ([true, true], List.replicate 18 true, [true, true, true], List.replicate 5 false)
  | ContentKind.Raw, _ =>
    ([true, true], List.replicate 18 false, [true, true, true], List.replicate 5 true)
  | ContentKind.Static, _ =>
    ([false, false], List.replicate 18 false, [false, false, false], List.replicate 5 false)

/-- The four flag groups of a window that `derivedFlags` tabulates. -/
def fixedFlags (ui : Ui) : List Bool × List Bool × List Bool × List Bool :=
  (undoRedoEnabled ui, richFormattingEnabled ui, findEnabled ui, replaceEnabled ui)

/-- Example tab that reports Cut, Copy and Paste as enabled; otherwise like
`exampleTab`. -/
def exampleTabWithClipboard (resourceType : ResourceType) (answer : ViewState → Bool) :
    CurrentContentTab :=
  { exampleTab resourceType answer with
    CutEnabled := true, CopyEnabled := true, PasteEnabled := true }

/-- The zoom factor `ZoomByStep` hands to `ZoomByFactor` when the tab's zoom
factor is `current_zoom_factor` (lines 2097-2110), in the exact arithmetic of
`ZoomByStep`. -/
def zoomStepRequest (round : ℚ → ℚ) (zoom_in : Bool) (current_zoom_factor : ℚ) : ℚ :=
  let zoom_stepping : ℚ := if zoom_in then ZOOM_STEP else - ZOOM_STEP
  let rounding_helper : ℚ := if zoom_in then 5 / 100 else - (5 / 100)
  let rounded_zoom_factor : ℚ := round (current_zoom_factor + rounding_helper)
  if |current_zoom_factor - rounded_zoom_factor| < 1 / 100 then
    round (current_zoom_factor + zoom_stepping)
  else
    rounded_zoom_factor

/-! ## Helper lemmas -/

theorem toInt_of_nonneg {x : ℚ} (h : 0 ≤ x) : toInt x = ⌊x⌋ := by
  simp [toInt, h]

theorem toInt_of_neg {x : ℚ} (h : x < 0) : toInt x = ⌈x⌉ := by
  simp [toInt, not_le.mpr h]

/-- Qt's `qRound` is rounding to the nearest integer, ties upwards. -/
theorem qRound_eq_floor (d : ℚ) : qRound d = ⌊d + 1 / 2⌋ := by
  unfold qRound
  split_ifs with h
  · exact toInt_of_nonneg (by linarith)
  · have hd : d < 0 := not_le.mp h
    have h1 : toInt (d - 1) = ⌈d - 1⌉ := toInt_of_neg (by linarith)
    rw [h1]
    have hc1 : ((⌈d - 1⌉ : ℤ) : ℚ) < d - 1 + 1 := Int.ceil_lt_add_one (d - 1)
    have hc2 : d - 1 ≤ ((⌈d - 1⌉ : ℤ) : ℚ) := Int.le_ceil (d - 1)
    have h2 : toInt (d - (⌈d - 1⌉ : ℚ) + 1 / 2) = ⌊d - (⌈d - 1⌉ : ℚ) + 1 / 2⌋ :=
      toInt_of_nonneg (by linarith)
    rw [h2]
    have h3 : d - (⌈d - 1⌉ : ℚ) + 1 / 2 = (d + 1 / 2) - ((⌈d - 1⌉ : ℤ) : ℚ) := by ring
    rw [h3, Int.floor_sub_int]
    ring

theorem sliderLaw_mono {a b : ℚ} (h : a ≤ b) : sliderLaw a ≤ sliderLaw b := by
  unfold sliderLaw
  split_ifs with ha hb hb <;> linarith

theorem qFuzzyCompare_normal_band {f : ℚ} (h : qFuzzyCompare f ZOOM_NORMAL) :
    1 - 1 / 100000 ≤ f ∧ f ≤ 1 + 1 / 100000 := by
  unfold qFuzzyCompare ZOOM_NORMAL at h
  have hmin : min |f| |(1 : ℚ)| ≤ 1 := by
    have := min_le_right |f| |(1 : ℚ)|
    rwa [abs_one] at this
  have habs : |f - 1| ≤ 1 / 100000 := by linarith
  have := abs_le.mp habs
  constructor <;> linarith [this.1, this.2]

/-- The source function is the linear law followed by rounding to the nearest
integer; the fuzzy-equality shortcut agrees with it. -/
theorem ZoomFactorToSliderRange_eq_floor (f : ℚ) :
    ZoomFactorToSliderRange f = ⌊sliderLaw f + 1 / 2⌋ := by
  unfold ZoomFactorToSliderRange
  split_ifs with hfz hlt
  · obtain ⟨h1, h2⟩ := qFuzzyCompare_normal_band hfz
    symm
    rw [Int.floor_eq_iff]
    unfold sliderLaw ZOOM_SLIDER_MIDDLE
    push_cast
    split_ifs <;> constructor <;> linarith
  · have hlt1 : f < 1 := hlt
    simp only [qRound_eq_floor, sliderLaw, if_pos hlt1, ZOOM_SLIDER_MIN, ZOOM_SLIDER_MIDDLE,
      ZOOM_NORMAL, ZOOM_MIN, zero_add]
    congr 2
    push_cast
    ring
  · have hlt1 : ¬ f < 1 := hlt
    simp only [qRound_eq_floor, sliderLaw, if_neg hlt1, ZOOM_SLIDER_MIDDLE, ZOOM_NORMAL, ZOOM_MAX]
    have hlaw : (500 : ℚ) + (f - 1) * 125 + 1 / 2
        = ((f - 1) * 125 + 1 / 2) + ((500 : ℤ) : ℚ) := by
      push_cast
      ring
    have hsrc : (f - 1) / (5 - 1) * ((500 : ℤ) : ℚ) + 1 / 2 = (f - 1) * 125 + 1 / 2 := by
      push_cast
      ring
    rw [hlaw, Int.floor_add_int, hsrc]
    ring

theorem SliderRangeToZoomFactor_below {p : ℤ} (h : p < 500) :
    SliderRangeToZoomFactor p = 9 / 100 + (p : ℚ) * (91 / 50000) := by
  have hne : p ≠ 500 := by omega
  simp only [SliderRangeToZoomFactor, ZOOM_SLIDER_MIDDLE, ZOOM_SLIDER_MIN, ZOOM_NORMAL, ZOOM_MIN,
    if_neg hne, if_pos h]
  push_cast
  ring

theorem SliderRangeToZoomFactor_middle : SliderRangeToZoomFactor 500 = 1 := by
  simp [SliderRangeToZoomFactor, ZOOM_SLIDER_MIDDLE, ZOOM_NORMAL]

theorem SliderRangeToZoomFactor_above {p : ℤ} (h : 500 < p) :
    SliderRangeToZoomFactor p = 1 + ((p : ℚ) - 500) * (1 / 125) := by
  have hne : p ≠ 500 := by omega
  have hnl : ¬ p < 500 := by omega
  simp only [SliderRangeToZoomFactor, ZOOM_SLIDER_MIDDLE, ZOOM_SLIDER_MAX, ZOOM_NORMAL, ZOOM_MAX,
    if_neg hne, if_neg hnl]
  push_cast
  ring

/-- The round trip slider -> factor -> slider is the identity on every integer. -/
theorem slider_roundtrip_all (p : ℤ) :
    ZoomFactorToSliderRange (SliderRangeToZoomFactor p) = p := by
  rw [ZoomFactorToSliderRange_eq_floor, Int.floor_eq_iff]
  rcases lt_trichotomy p 500 with h | h | h
  · have hq : (p : ℚ) ≤ 499 := by exact_mod_cast (by omega : p ≤ 499)
    have hlt : 9 / 100 + (p : ℚ) * (91 / 50000) < 1 := by linarith
    rw [SliderRangeToZoomFactor_below h, sliderLaw, if_pos hlt]
    constructor <;> linarith
  · subst h
    rw [SliderRangeToZoomFactor_middle]
    norm_num [sliderLaw]
  · have hq : (501 : ℚ) ≤ (p : ℚ) := by exact_mod_cast (by omega : 501 ≤ p)
    have hge : ¬ (1 + ((p : ℚ) - 500) * (1 / 125) < 1) := by
      rw [not_lt]
      linarith
    rw [SliderRangeToZoomFactor_above h, sliderLaw, if_neg hge]
    constructor <;> linarith

theorem ZoomByFactor_in_range {f : ℚ} (tab : ContentTab) (h0 : 9 / 100 ≤ f) (h1 : f ≤ 5) :
    ZoomByFactor f (some tab) = some (tab.SetZoomFactor f) := by
  have h : ¬ (f > ZOOM_MAX ∨ f < ZOOM_MIN) := by
    unfold ZOOM_MAX ZOOM_MIN
    rintro (h | h) <;> linarith
  simp only [ZoomByFactor, if_neg h]

theorem ZoomByFactor_out_of_range {f : ℚ} (tab : ContentTab) (h : f < 9 / 100 ∨ 5 < f) :
    ZoomByFactor f (some tab) = some tab := by
  have h2 : f > ZOOM_MAX ∨ f < ZOOM_MIN := by
    unfold ZOOM_MAX ZOOM_MIN
    exact h.symm
  simp only [ZoomByFactor, if_pos h2]

/-- A rounding to the nearest tenth leaves a multiple of one tenth alone. -/
theorem round_tenth {round : ℚ → ℚ} (hr : RoundsToNearestTenth round) (m : ℤ) :
    round ((m : ℚ) / 10) = (m : ℚ) / 10 := by
  obtain ⟨⟨n, hn⟩, hd⟩ := hr ((m : ℚ) / 10)
  rw [hn] at hd ⊢
  obtain ⟨h1, h2⟩ := abs_le.mp hd
  have c1 : (m : ℚ) < (n : ℚ) + 1 := by linarith
  have c2 : (n : ℚ) < (m : ℚ) + 1 := by linarith
  have e1 : m < n + 1 := by exact_mod_cast c1
  have e2 : n < m + 1 := by exact_mod_cast c2
  have : n = m := by omega
  rw [this]

/-- A rounding to the nearest tenth sends the midpoint of two neighbouring
tenths to one of the two. -/
theorem round_tie {round : ℚ → ℚ} (hr : RoundsToNearestTenth round) (m : ℤ) :
    round ((m : ℚ) / 10 + 1 / 20) = (m : ℚ) / 10 ∨
    round ((m : ℚ) / 10 + 1 / 20) = ((m : ℚ) + 1) / 10 := by
  obtain ⟨⟨n, hn⟩, hd⟩ := hr ((m : ℚ) / 10 + 1 / 20)
  rw [hn] at hd ⊢
  obtain ⟨h1, h2⟩ := abs_le.mp hd
  have c1 : (m : ℚ) ≤ (n : ℚ) := by linarith
  have c2 : (n : ℚ) ≤ (m : ℚ) + 1 := by linarith
  have e1 : m ≤ n := by exact_mod_cast c1
  have e2 : n ≤ m + 1 := by exact_mod_cast c2
  rcases (by omega : n = m ∨ n = m + 1) with h | h
  · left
    rw [h]
  · right
    rw [h]
    push_cast
    ring

/-- The instance `RoundToOneDecimal` rounds to the nearest tenth. -/
theorem RoundToOneDecimal_nearest : RoundsToNearestTenth RoundToOneDecimal := by
  intro x
  refine ⟨⟨⌊x * 10 + 1 / 2⌋, rfl⟩, ?_⟩
  unfold RoundToOneDecimal
  have h1 : ((⌊x * 10 + 1 / 2⌋ : ℤ) : ℚ) ≤ x * 10 + 1 / 2 := Int.floor_le _
  have h2 : x * 10 + 1 / 2 < ((⌊x * 10 + 1 / 2⌋ : ℤ) : ℚ) + 1 := Int.lt_floor_add_one _
  rw [abs_le]
  constructor <;> linarith

/-- One step of `ZoomByStep` inwards from the tenth `k/10`: whichever way the
tie at `k/10 + 0.05` breaks, the request is `(k+1)/10`. -/
theorem ZoomByStep_in_on_grid {round : ℚ → ℚ} (hr : RoundsToNearestTenth round)
    (k : ℤ) (tab : ContentTab) (hc : tab.zoomFactor = (k : ℚ) / 10) :
    ZoomByStep round true (some tab) = ZoomByFactor (((k : ℚ) + 1) / 10) (some tab) := by
  have e1 : tab.GetZoomFactor + 5 / 100 = (k : ℚ) / 10 + 1 / 20 := by
    rw [ContentTab.GetZoomFactor, hc]
    norm_num
  have e2 : tab.GetZoomFactor + ZOOM_STEP = ((k + 1 : ℤ) : ℚ) / 10 := by
    rw [ContentTab.GetZoomFactor, hc, ZOOM_STEP]
    push_cast
    ring
  simp only [ZoomByStep, if_true, e1, e2]
  rcases round_tie hr k with h | h
  · have hlt : |tab.GetZoomFactor - (k : ℚ) / 10| < 1 / 100 := by
      rw [ContentTab.GetZoomFactor, hc]
      norm_num
    rw [h, if_pos hlt, round_tenth hr (k + 1)]
    push_cast
    rfl
  · have hlt : ¬ |tab.GetZoomFactor - ((k : ℚ) + 1) / 10| < 1 / 100 := by
      rw [ContentTab.GetZoomFactor, hc]
      have : (k : ℚ) / 10 - ((k : ℚ) + 1) / 10 = - (1 / 10) := by ring
      rw [this, abs_neg, abs_of_pos (by norm_num : (0 : ℚ) < 1 / 10)]
      norm_num
    rw [h, if_neg hlt]

/-- One step of `ZoomByStep` outwards from the tenth `k/10`: whichever way the
tie at `k/10 - 0.05` breaks, the request is `(k-1)/10`. -/
theorem ZoomByStep_out_on_grid {round : ℚ → ℚ} (hr : RoundsToNearestTenth round)
    (k : ℤ) (tab : ContentTab) (hc : tab.zoomFactor = (k : ℚ) / 10) :
    ZoomByStep round false (some tab) = ZoomByFactor (((k : ℚ) - 1) / 10) (some tab) := by
  have e1 : tab.GetZoomFactor + -(5 / 100) = ((k - 1 : ℤ) : ℚ) / 10 + 1 / 20 := by
    rw [ContentTab.GetZoomFactor, hc]
    push_cast
    ring
  have e2 : tab.GetZoomFactor + -ZOOM_STEP = ((k - 1 : ℤ) : ℚ) / 10 := by
    rw [ContentTab.GetZoomFactor, hc, ZOOM_STEP]
    push_cast
    ring
  simp only [ZoomByStep, Bool.false_eq_true, if_false, e1, e2]
  rcases round_tie hr (k - 1) with h | h
  · have hlt : ¬ |tab.GetZoomFactor - ((k - 1 : ℤ) : ℚ) / 10| < 1 / 100 := by
      rw [ContentTab.GetZoomFactor, hc]
      have : (k : ℚ) / 10 - ((k - 1 : ℤ) : ℚ) / 10 = 1 / 10 := by
        push_cast
        ring
      rw [this, abs_of_pos (by norm_num : (0 : ℚ) < 1 / 10)]
      norm_num
    rw [h, if_neg hlt]
    push_cast
    rfl
  · have hk : (((k - 1 : ℤ) : ℚ) + 1) / 10 = (k : ℚ) / 10 := by
      push_cast
      ring
    have hlt : |tab.GetZoomFactor - (k : ℚ) / 10| < 1 / 100 := by
      rw [ContentTab.GetZoomFactor, hc]
      norm_num
    rw [h, hk, if_pos hlt, round_tenth hr (k - 1)]
    push_cast
    rfl

/-- Whatever is requested, `ZoomByFactor` keeps a legal zoom factor legal. -/
theorem ZoomByFactor_legal (f : ℚ) (tab : ContentTab) (h : zoomFactorLegal (some tab)) :
    zoomFactorLegal (ZoomByFactor f (some tab)) := by
  unfold ZoomByFactor
  split_ifs with hf
  · exact h
  · push_neg at hf
    exact ⟨hf.2, hf.1⟩

/-! ## Claims -/

/-- C1: for every slider position `p` with `0 <= p <= 1000`,
`ZoomFactorToSliderRange(SliderRangeToZoomFactor(p))` is `p` again. -/
theorem C1_slider_factor_slider_roundtrip (p : ℤ) (_h0 : 0 ≤ p) (_h1 : p ≤ 1000) :
    ZoomFactorToSliderRange (SliderRangeToZoomFactor p) = p :=
  slider_roundtrip_all p

theorem C1_slider_factor_slider_roundtrip_witness :
    ZoomFactorToSliderRange (SliderRangeToZoomFactor 123) = 123 :=
  C1_slider_factor_slider_roundtrip 123 (by decide) (by decide)

/-- C2: `ZoomFactorToSliderRange(1.0)` is exactly `500` (through the
fuzzy-equality branch) and `SliderRangeToZoomFactor(500)` is exactly `1.0`
(through the `== ZOOM_SLIDER_MIDDLE` branch). -/
theorem C2_midpoint_exact :
    ZoomFactorToSliderRange 1 = 500 ∧ SliderRangeToZoomFactor 500 = 1 := by
  constructor
  · have h : qFuzzyCompare 1 ZOOM_NORMAL := by
      norm_num [qFuzzyCompare, ZOOM_NORMAL]
    simp [ZoomFactorToSliderRange, h, ZOOM_SLIDER_MIDDLE]
  · exact SliderRangeToZoomFactor_middle

/-- C3: `ZoomFactorToSliderRange` is monotone on the legal range: for
`0.09 <= a < b <= 5.0` the position of `a` is at most the position of `b`. -/
theorem C3_factor_to_slider_monotone (a b : ℚ) (hab : a < b) (_ha : 9 / 100 ≤ a)
    (_hb : b ≤ 5) : ZoomFactorToSliderRange a ≤ ZoomFactorToSliderRange b := by
  rw [ZoomFactorToSliderRange_eq_floor, ZoomFactorToSliderRange_eq_floor]
  apply Int.floor_mono
  have := sliderLaw_mono (le_of_lt hab)
  linarith

theorem C3_factor_to_slider_monotone_witness :
    ZoomFactorToSliderRange (999999 / 1000000) ≤ ZoomFactorToSliderRange (1001 / 1000) :=
  C3_factor_to_slider_monotone (999999 / 1000000) (1001 / 1000) (by norm_num) (by norm_num)
    (by norm_num)

/-- C4, as stated, fails: the factor `0.9995` lies in `[0.09, 1.0)`, is not
`1.0`, and rounding to the nearest integer sends it to position `500`. -/
theorem C4_counterexample :
    ¬ (∀ f : ℚ, 9 / 100 ≤ f → f ≤ 5 → (ZoomFactorToSliderRange f = 500 ↔ f = 1)) := by
  intro h
  have h500 : ZoomFactorToSliderRange (9995 / 10000) = 500 := by
    rw [ZoomFactorToSliderRange_eq_floor, Int.floor_eq_iff]
    norm_num [sliderLaw]
  have := (h (9995 / 10000) (by norm_num) (by norm_num)).mp h500
  norm_num at this

/-- C4 (amended): for every zoom factor `f` with `0.09 <= f <= 5.0`, the factor
`1.0` maps to `500`; the position is `500` exactly when
`0.99909 <= f < 1.004`; every `f < 1.0` maps into `[0, 500]` and every
`f > 1.0` maps into `[500, 1000]`. -/
theorem C4_midpoint_band (f : ℚ) (h0 : 9 / 100 ≤ f) (h1 : f ≤ 5) :
    (f = 1 → ZoomFactorToSliderRange f = 500) ∧
    (ZoomFactorToSliderRange f = 500 ↔ 99909 / 100000 ≤ f ∧ f < 1004 / 1000) ∧
    (f < 1 → 0 ≤ ZoomFactorToSliderRange f ∧ ZoomFactorToSliderRange f ≤ 500) ∧
    (1 < f → 500 ≤ ZoomFactorToSliderRange f ∧ ZoomFactorToSliderRange f ≤ 1000) := by
  rw [ZoomFactorToSliderRange_eq_floor]
  refine ⟨?_, ?_, ?_, ?_⟩
  · intro hf
    subst hf
    rw [Int.floor_eq_iff]
    norm_num [sliderLaw]
  · rw [Int.floor_eq_iff]
    unfold sliderLaw
    push_cast
    split_ifs with hlt
    · constructor
      · rintro ⟨ha, _⟩
        constructor <;> linarith
      · rintro ⟨ha, _⟩
        constructor <;> linarith
    · constructor
      · rintro ⟨_, hb⟩
        constructor <;> linarith
      · rintro ⟨_, hb⟩
        constructor <;> linarith
  · intro hlt
    rw [Int.le_floor, ← Int.lt_add_one_iff, Int.floor_lt, sliderLaw, if_pos hlt]
    push_cast
    constructor <;> linarith
  · intro hgt
    rw [Int.le_floor, ← Int.lt_add_one_iff, Int.floor_lt, sliderLaw, if_neg (not_lt.mpr hgt.le)]
    push_cast
    constructor <;> linarith

theorem C4_midpoint_band_witness :
    ZoomFactorToSliderRange (9995 / 10000) = 500 ∧
    ZoomFactorToSliderRange (1003 / 1000) = 500 ∧
    ¬ ZoomFactorToSliderRange (9990 / 10000) = 500 :=
  ⟨(C4_midpoint_band (9995 / 10000) (by norm_num) (by norm_num)).2.1.mpr (by norm_num),
   (C4_midpoint_band (1003 / 1000) (by norm_num) (by norm_num)).2.1.mpr (by norm_num),
   fun h => absurd ((C4_midpoint_band (9990 / 10000) (by norm_num) (by norm_num)).2.1.mp h)
     (by norm_num)⟩

/-- C5: `SliderRangeToZoomFactor` is strictly increasing on the positions
`0..1000`, sends `0` to `0.09` and `1000` to `5.0`; positions below `500` give
factors in `[0.09, 1.0)`, positions above `500` give factors in `(1.0, 5.0]`,
and `ZoomByFactor` accepts the factor of every position in range. -/
theorem C5_slider_to_factor_increasing :
    (∀ p q : ℤ, 0 ≤ p → p < q → q ≤ 1000 →
      SliderRangeToZoomFactor p < SliderRangeToZoomFactor q) ∧
    SliderRangeToZoomFactor 0 = 9 / 100 ∧
    SliderRangeToZoomFactor 1000 = 5 ∧
    (∀ p : ℤ, 0 ≤ p → p < 500 →
      9 / 100 ≤ SliderRangeToZoomFactor p ∧ SliderRangeToZoomFactor p < 1) ∧
    (∀ p : ℤ, 500 < p → p ≤ 1000 →
      1 < SliderRangeToZoomFactor p ∧ SliderRangeToZoomFactor p ≤ 5) ∧
    (∀ (p : ℤ) (tab : ContentTab), 0 ≤ p → p ≤ 1000 →
      ZoomByFactor (SliderRangeToZoomFactor p) (some tab)
        = some (tab.SetZoomFactor (SliderRangeToZoomFactor p))) := by
  have hlow : ∀ p : ℤ, 0 ≤ p → p < 500 →
      9 / 100 ≤ SliderRangeToZoomFactor p ∧ SliderRangeToZoomFactor p < 1 := by
    intro p h0 h
    have c0 : (0 : ℚ) ≤ (p : ℚ) := by exact_mod_cast h0
    have c1 : (p : ℚ) ≤ 499 := by exact_mod_cast (by omega : p ≤ 499)
    rw [SliderRangeToZoomFactor_below h]
    constructor <;> linarith
  have hhigh : ∀ p : ℤ, 500 < p → p ≤ 1000 →
      1 < SliderRangeToZoomFactor p ∧ SliderRangeToZoomFactor p ≤ 5 := by
    intro p h h1
    have c0 : (501 : ℚ) ≤ (p : ℚ) := by exact_mod_cast (by omega : 501 ≤ p)
    have c1 : (p : ℚ) ≤ 1000 := by exact_mod_cast h1
    rw [SliderRangeToZoomFactor_above h]
    constructor <;> linarith
  refine ⟨?_, ?_, ?_, hlow, hhigh, ?_⟩
  · intro p q h0 hpq h1
    have cpq : (p : ℚ) < (q : ℚ) := by exact_mod_cast hpq
    rcases lt_trichotomy q 500 with hq | hq | hq
    · rw [SliderRangeToZoomFactor_below hq, SliderRangeToZoomFactor_below (by omega : p < 500)]
      linarith
    · subst hq
      rw [SliderRangeToZoomFactor_middle]
      exact (hlow p h0 hpq).2
    · rcases lt_trichotomy p 500 with hp | hp | hp
      · exact lt_trans (hlow p h0 hp).2 (hhigh q hq h1).1
      · subst hp
        rw [SliderRangeToZoomFactor_middle]
        exact (hhigh q hq h1).1
      · rw [SliderRangeToZoomFactor_above hq, SliderRangeToZoomFactor_above hp]
        linarith
  · rw [SliderRangeToZoomFactor_below (by norm_num)]
    norm_num
  · rw [SliderRangeToZoomFactor_above (by norm_num)]
    norm_num
  · intro p tab h0 h1
    have hr : 9 / 100 ≤ SliderRangeToZoomFactor p ∧ SliderRangeToZoomFactor p ≤ 5 := by
      rcases lt_trichotomy p 500 with hp | hp | hp
      · exact ⟨(hlow p h0 hp).1, by linarith [(hlow p h0 hp).2]⟩
      · subst hp
        rw [SliderRangeToZoomFactor_middle]
        norm_num
      · exact ⟨by linarith [(hhigh p hp h1).1], (hhigh p hp h1).2⟩
    exact ZoomByFactor_in_range tab hr.1 hr.2

theorem C5_slider_to_factor_increasing_witness :
    SliderRangeToZoomFactor 499 < SliderRangeToZoomFactor 501 ∧
    ZoomByFactor (SliderRangeToZoomFactor 1000) (some ⟨1⟩)
      = some (ContentTab.SetZoomFactor ⟨1⟩ (SliderRangeToZoomFactor 1000)) :=
  ⟨C5_slider_to_factor_increasing.1 499 501 (by decide) (by decide) (by decide),
   C5_slider_to_factor_increasing.2.2.2.2.2 1000 ⟨1⟩ (by decide) (by decide)⟩

/-- C6: for every zoom factor `f` with `0.09 <= f <= 5.0` the position
`ZoomFactorToSliderRange(f)` lies between `ZOOM_SLIDER_MIN = 0` and
`ZOOM_SLIDER_MAX = 1000`; `0.09` maps to `0` and `5.0` maps to `1000`. -/
theorem C6_slider_position_in_bounds (f : ℚ) (h0 : 9 / 100 ≤ f) (h1 : f ≤ 5) :
    (ZOOM_SLIDER_MIN ≤ ZoomFactorToSliderRange f ∧
      ZoomFactorToSliderRange f ≤ ZOOM_SLIDER_MAX) ∧
    ZoomFactorToSliderRange (9 / 100) = 0 ∧
    ZoomFactorToSliderRange 5 = 1000 := by
  refine ⟨?_, ?_, ?_⟩
  · rw [ZoomFactorToSliderRange_eq_floor, Int.le_floor, ← Int.lt_add_one_iff, Int.floor_lt]
    unfold sliderLaw ZOOM_SLIDER_MIN ZOOM_SLIDER_MAX
    push_cast
    split_ifs with hlt <;> constructor <;> linarith
  · rw [ZoomFactorToSliderRange_eq_floor, Int.floor_eq_iff]
    norm_num [sliderLaw]
  · rw [ZoomFactorToSliderRange_eq_floor, Int.floor_eq_iff]
    norm_num [sliderLaw]

theorem C6_slider_position_in_bounds_witness :
    (ZOOM_SLIDER_MIN ≤ ZoomFactorToSliderRange (7 / 2) ∧
      ZoomFactorToSliderRange (7 / 2) ≤ ZOOM_SLIDER_MAX) ∧
    ZoomFactorToSliderRange (9 / 100) = 0 ∧
    ZoomFactorToSliderRange 5 = 1000 :=
  C6_slider_position_in_bounds (7 / 2) (by norm_num) (by norm_num)

/-- C7: for every zoom factor `f` with `0.09 <= f <= 5.0`,
`|SliderRangeToZoomFactor(ZoomFactorToSliderRange(f)) - f| < 0.009`. -/
theorem C7_factor_slider_factor_error (f : ℚ) (_h0 : 9 / 100 ≤ f) (_h1 : f ≤ 5) :
    |SliderRangeToZoomFactor (ZoomFactorToSliderRange f) - f| < 9 / 1000 := by
  rw [ZoomFactorToSliderRange_eq_floor]
  have hn1 : ((⌊sliderLaw f + 1 / 2⌋ : ℤ) : ℚ) ≤ sliderLaw f + 1 / 2 := Int.floor_le _
  have hn2 : sliderLaw f + 1 / 2 < ((⌊sliderLaw f + 1 / 2⌋ : ℤ) : ℚ) + 1 :=
    Int.lt_floor_add_one _
  generalize ⌊sliderLaw f + 1 / 2⌋ = n at hn1 hn2
  rw [abs_lt]
  by_cases hf : f < 1
  · rw [sliderLaw, if_pos hf] at hn1 hn2
    rcases lt_trichotomy n 500 with hn | hn | hn
    · rw [SliderRangeToZoomFactor_below hn]
      constructor <;> linarith
    · subst hn
      rw [SliderRangeToZoomFactor_middle]
      push_cast at hn1 hn2
      constructor <;> linarith
    · have c : (501 : ℚ) ≤ (n : ℚ) := by exact_mod_cast (by omega : 501 ≤ n)
      exfalso
      linarith
  · rw [sliderLaw, if_neg hf] at hn1 hn2
    have hf1 : 1 ≤ f := not_lt.mp hf
    rcases lt_trichotomy n 500 with hn | hn | hn
    · have c : (n : ℚ) ≤ 499 := by exact_mod_cast (by omega : n ≤ 499)
      exfalso
      linarith
    · subst hn
      rw [SliderRangeToZoomFactor_middle]
      push_cast at hn1 hn2
      constructor <;> linarith
    · rw [SliderRangeToZoomFactor_above hn]
      constructor <;> linarith

theorem C7_factor_slider_factor_error_witness :
    |SliderRangeToZoomFactor (ZoomFactorToSliderRange (1234 / 1000)) - 1234 / 1000| < 9 / 1000 :=
  C7_factor_slider_factor_error (1234 / 1000) (by norm_num) (by norm_num)

/-- C8: with an active tab, `ZoomByFactor(f)` stores `f` as the tab's zoom
factor when `0.09 <= f <= 5.0` (both bounds included) and leaves the tab as it
was otherwise; an out-of-range request is dropped, not clamped. -/
theorem C8_zoom_by_factor_accepts_or_ignores (f : ℚ) (tab : ContentTab) :
    ZoomByFactor f (some tab)
        = (if 9 / 100 ≤ f ∧ f ≤ 5 then some (tab.SetZoomFactor f) else some tab) ∧
    (ZoomByFactor f (some tab)).map ContentTab.GetZoomFactor
        = some (if 9 / 100 ≤ f ∧ f ≤ 5 then f else tab.GetZoomFactor) := by
  by_cases h : 9 / 100 ≤ f ∧ f ≤ 5
  · rw [if_pos h, if_pos h, ZoomByFactor_in_range tab h.1 h.2]
    exact ⟨rfl, rfl⟩
  · have hout : f < 9 / 100 ∨ 5 < f := by
      by_contra hc
      push_neg at hc
      exact h ⟨hc.1, hc.2⟩
    rw [if_neg h, if_neg h, ZoomByFactor_out_of_range tab hout]
    exact ⟨rfl, rfl⟩

/-- C9: for an on-grid zoom factor `k/10`, `ZoomByStep(true)` sets the factor
to `(k+1)/10` when `1 <= k <= 49` and `ZoomByStep(false)` sets it to
`(k-1)/10` when `2 <= k <= 50`, for every rounding to the nearest tenth,
whichever way it breaks ties; from `1.0`, zooming in gives `1.1` and zooming
out gives `0.9`. -/
theorem C9_zoom_step_on_grid (round : ℚ → ℚ) (hr : RoundsToNearestTenth round) :
    (∀ (k : ℤ) (tab : ContentTab), tab.zoomFactor = (k : ℚ) / 10 → 1 ≤ k → k ≤ 49 →
      ZoomByStep round true (some tab) = some (tab.SetZoomFactor (((k : ℚ) + 1) / 10))) ∧
    (∀ (k : ℤ) (tab : ContentTab), tab.zoomFactor = (k : ℚ) / 10 → 2 ≤ k → k ≤ 50 →
      ZoomByStep round false (some tab) = some (tab.SetZoomFactor (((k : ℚ) - 1) / 10))) ∧
    ZoomByStep round true (some ⟨1⟩) = some ⟨11 / 10⟩ ∧
    ZoomByStep round false (some ⟨1⟩) = some ⟨9 / 10⟩ := by
  refine ⟨?_, ?_, ?_, ?_⟩
  · intro k tab hc h1 h49
    have c1 : (1 : ℚ) ≤ (k : ℚ) := by exact_mod_cast h1
    have c2 : (k : ℚ) ≤ 49 := by exact_mod_cast h49
    rw [ZoomByStep_in_on_grid hr k tab hc]
    exact ZoomByFactor_in_range tab (by linarith) (by linarith)
  · intro k tab hc h2 h50
    have c1 : (2 : ℚ) ≤ (k : ℚ) := by exact_mod_cast h2
    have c2 : (k : ℚ) ≤ 50 := by exact_mod_cast h50
    rw [ZoomByStep_out_on_grid hr k tab hc]
    exact ZoomByFactor_in_range tab (by linarith) (by linarith)
  · rw [ZoomByStep_in_on_grid hr 10 ⟨1⟩ (by norm_num),
      ZoomByFactor_in_range _ (by norm_num) (by norm_num)]
    norm_num [ContentTab.SetZoomFactor]
  · rw [ZoomByStep_out_on_grid hr 10 ⟨1⟩ (by norm_num),
      ZoomByFactor_in_range _ (by norm_num) (by norm_num)]
    norm_num [ContentTab.SetZoomFactor]

theorem C9_zoom_step_on_grid_witness :
    RoundsToNearestTenth RoundToOneDecimal ∧
    ZoomByStep RoundToOneDecimal true (some ⟨1⟩) = some ⟨11 / 10⟩ ∧
    ZoomByStep RoundToOneDecimal false (some ⟨1⟩) = some ⟨9 / 10⟩ :=
  ⟨RoundToOneDecimal_nearest,
   (C9_zoom_step_on_grid RoundToOneDecimal RoundToOneDecimal_nearest).2.2.1,
   (C9_zoom_step_on_grid RoundToOneDecimal RoundToOneDecimal_nearest).2.2.2⟩

/-- C10: if the active tab's zoom factor lies in `[0.09, 5.0]`, it still does
after `ZoomIn`, `ZoomOut`, `ZoomReset`, `SliderZoom(p)` for any integer `p`
and `ZoomByFactor(f)` for any `f` (for whatever `Utility::RoundToOneDecimal`
returns); and with a rounding to the nearest tenth, `ZoomIn` at factor `5.0`
leaves the tab as it is. -/
theorem C10_zoom_factor_stays_legal (round : ℚ → ℚ) (tab : ContentTab)
    (h0 : 9 / 100 ≤ tab.zoomFactor) (h1 : tab.zoomFactor ≤ 5) :
    zoomFactorLegal (ZoomIn round (some tab)) ∧
    zoomFactorLegal (ZoomOut round (some tab)) ∧
    zoomFactorLegal (ZoomReset (some tab)) ∧
    (∀ p : ℤ, zoomFactorLegal (SliderZoom p (some tab))) ∧
    (∀ f : ℚ, zoomFactorLegal (ZoomByFactor f (some tab))) ∧
    (RoundsToNearestTenth round → tab.zoomFactor = 5 → ZoomIn round (some tab) = some tab) := by
  have hl : zoomFactorLegal (some tab) := ⟨h0, h1⟩
  have hstep : ∀ zoom_in : Bool, zoomFactorLegal (ZoomByStep round zoom_in (some tab)) := by
    intro zoom_in
    simp only [ZoomByStep]
    split_ifs <;> exact ZoomByFactor_legal _ tab hl
  refine ⟨hstep true, hstep false, ZoomByFactor_legal _ tab hl, ?_, ?_, ?_⟩
  · intro p
    simp only [SliderZoom]
    split_ifs
    · exact hl
    · exact ZoomByFactor_legal _ tab hl
  · intro f
    exact ZoomByFactor_legal f tab hl
  · intro hr h5
    have hc : tab.zoomFactor = ((50 : ℤ) : ℚ) / 10 := by
      rw [h5]
      norm_num
    rw [ZoomIn, ZoomByStep_in_on_grid hr 50 tab hc]
    exact ZoomByFactor_out_of_range tab (Or.inr (by norm_num))

theorem C10_zoom_factor_stays_legal_witness :
    (9 / 100 ≤ (5 : ℚ) ∧ (5 : ℚ) ≤ 5) ∧
    zoomFactorLegal (ZoomOut RoundToOneDecimal (some ⟨5⟩)) ∧
    zoomFactorLegal (SliderZoom 1001 (some ⟨5⟩)) ∧
    ZoomIn RoundToOneDecimal (some ⟨5⟩) = some ⟨5⟩ :=
  ⟨by norm_num,
   (C10_zoom_factor_stays_legal RoundToOneDecimal ⟨5⟩ (by norm_num) (by norm_num)).2.1,
   (C10_zoom_factor_stays_legal RoundToOneDecimal ⟨5⟩ (by norm_num) (by norm_num)).2.2.2.1 1001,
   (C10_zoom_factor_stays_legal RoundToOneDecimal ⟨5⟩ (by norm_num) (by norm_num)).2.2.2.2.2
     RoundToOneDecimal_nearest rfl⟩

/-! ## View state: helper lemmas -/

theorem UpdateUIOnTabChanges_m_ViewState (current : Option CurrentContentTab)
    (w : MainWindow) : (UpdateUIOnTabChanges current w).m_ViewState = w.m_ViewState := by
  cases current <;> rfl

theorem UpdateUIOnTabChanges_viewActions (current : Option CurrentContentTab)
    (w : MainWindow) :
    (UpdateUIOnTabChanges current w).ui.actionBookView = w.ui.actionBookView ∧
    (UpdateUIOnTabChanges current w).ui.actionSplitView = w.ui.actionSplitView ∧
    (UpdateUIOnTabChanges current w).ui.actionCodeView = w.ui.actionCodeView := by
  cases current <;> exact ⟨rfl, rfl, rfl⟩

theorem SetStateActionsBookView_m_ViewState (current : Option CurrentContentTab)
    (w : MainWindow) : (SetStateActionsBookView current w).m_ViewState = w.m_ViewState := by
  rw [SetStateActionsBookView, UpdateUIOnTabChanges_m_ViewState]

theorem SetStateActionsSplitView_m_ViewState (current : Option CurrentContentTab)
    (w : MainWindow) : (SetStateActionsSplitView current w).m_ViewState = w.m_ViewState := by
  rw [SetStateActionsSplitView, UpdateUIOnTabChanges_m_ViewState]

theorem SetStateActionsCodeView_m_ViewState (current : Option CurrentContentTab)
    (w : MainWindow) : (SetStateActionsCodeView current w).m_ViewState = w.m_ViewState := by
  rw [SetStateActionsCodeView, UpdateUIOnTabChanges_m_ViewState]

theorem SetStateActionsRawView_m_ViewState (current : Option CurrentContentTab)
    (w : MainWindow) : (SetStateActionsRawView current w).m_ViewState = w.m_ViewState := by
  rw [SetStateActionsRawView, UpdateUIOnTabChanges_m_ViewState]

theorem SetStateActionsStaticView_m_ViewState (current : Option CurrentContentTab)
    (w : MainWindow) : (SetStateActionsStaticView current w).m_ViewState = w.m_ViewState := by
  rw [SetStateActionsStaticView, UpdateUIOnTabChanges_m_ViewState]

/-- When `UpdateViewState` reports failure it has not touched the window. -/
theorem UpdateViewState_failure (b : Bool) (current : Option CurrentContentTab)
    (w : MainWindow) (h : (UpdateViewState b current w).1 = false) :
    (UpdateViewState b current w).2 = w := by
  unfold UpdateViewState at h ⊢
  cases current with
  | none => rfl
  | some tab =>
    simp only at h ⊢
    split_ifs at h ⊢
    all_goals rfl

/-- After `UpdateViewState` the view state is the one before the call, or
`ViewState_BookView`. -/
theorem UpdateViewState_m_ViewState (b : Bool) (current : Option CurrentContentTab)
    (w : MainWindow) :
    (UpdateViewState b current w).2.m_ViewState = w.m_ViewState ∨
    (UpdateViewState b current w).2.m_ViewState = ViewState_BookView := by
  unfold UpdateViewState
  cases current with
  | none => exact Or.inl rfl
  | some tab =>
    simp only
    split_ifs <;>
      simp [SetStateActionsBookView_m_ViewState, SetStateActionsSplitView_m_ViewState,
        SetStateActionsCodeView_m_ViewState, SetStateActionsRawView_m_ViewState,
        SetStateActionsStaticView_m_ViewState]

/-- On an HTML tab that is not asked, or accepts, `UpdateViewState` succeeds
and keeps a view state other than `ViewState_Unknown`. -/
theorem UpdateViewState_html_accept (b : Bool) (tab : CurrentContentTab) (w : MainWindow)
    (hhtml : tab.resourceType = HTMLResourceType)
    (hacc : (b && tab.isFlowTab && !(tab.SetViewState w.m_ViewState)) = false)
    (hs : w.m_ViewState ≠ ViewState_Unknown) :
    (UpdateViewState b (some tab) w).1 = true ∧
    (UpdateViewState b (some tab) w).2.m_ViewState = w.m_ViewState := by
  unfold UpdateViewState
  simp only [hhtml, if_true, hacc]
  by_cases hc : w.m_ViewState = ViewState_CodeView
  · simp [hc, SetStateActionsCodeView_m_ViewState]
  · by_cases hp : w.m_ViewState = ViewState_PreviewView
    · simp [hp, SetStateActionsSplitView_m_ViewState]
    · have hb : w.m_ViewState = ViewState_BookView := by
        cases hv : w.m_ViewState <;> simp_all
      simp [hb, SetStateActionsBookView_m_ViewState]

/-- On an HTML flow tab that is asked and refuses, `UpdateViewState` fails. -/
theorem UpdateViewState_html_refuse (tab : CurrentContentTab) (w : MainWindow)
    (hhtml : tab.resourceType = HTMLResourceType) (hflow : tab.isFlowTab = true)
    (href : tab.SetViewState w.m_ViewState = false) :
    UpdateViewState true (some tab) w = (false, w) := by
  unfold UpdateViewState
  simp [hhtml, hflow, href]

/-- What `SetViewState` does when `UpdateViewState` fails: the view state is
the old one and the three view actions are set to unchecked, unchecked,
checked. -/
theorem SetViewState_of_failure (s : ViewState) (current : Option CurrentContentTab)
    (w : MainWindow) (h : updateSucceeds s current w = false) :
    SetViewState s current w =
      { w with ui := { w.ui with
          actionBookView := w.ui.actionBookView.setChecked false,
          actionSplitView := w.ui.actionSplitView.setChecked false,
          actionCodeView := w.ui.actionCodeView.setChecked true } } := by
  unfold updateSucceeds requestedViewState at h
  have h2 := UpdateViewState_failure _ _ _ h
  unfold SetViewState
  simp only [h, h2]
  rfl

/-- What `SetViewState` does when `UpdateViewState` succeeds. -/
theorem SetViewState_of_success (s : ViewState) (current : Option CurrentContentTab)
    (w : MainWindow) (h : updateSucceeds s current w = true) :
    SetViewState s current w =
      (UpdateViewState (decide (w.m_ViewState ≠ requestedViewState s)) current
        { w with m_ViewState := requestedViewState s }).2 := by
  unfold updateSucceeds requestedViewState at h
  unfold SetViewState requestedViewState
  simp only [h]
  rfl

theorem requestedViewState_ne_unknown (s : ViewState) :
    requestedViewState s ≠ ViewState_Unknown := by
  cases s <;> simp [requestedViewState]

/-- The view state after `SetViewState` is the old one, the requested one or
`ViewState_BookView`. -/
theorem SetViewState_m_ViewState (s : ViewState) (current : Option CurrentContentTab)
    (w : MainWindow) :
    (SetViewState s current w).m_ViewState = w.m_ViewState ∨
    (SetViewState s current w).m_ViewState = requestedViewState s ∨
    (SetViewState s current w).m_ViewState = ViewState_BookView := by
  cases h : updateSucceeds s current w with
  | false =>
    rw [SetViewState_of_failure s current w h]
    exact Or.inl rfl
  | true =>
    rw [SetViewState_of_success s current w h]
    rcases UpdateViewState_m_ViewState (decide (w.m_ViewState ≠ requestedViewState s)) current
      { w with m_ViewState := requestedViewState s } with h1 | h1
    · exact Or.inr (Or.inl h1)
    · exact Or.inr (Or.inr h1)

theorem SetViewState_ne_unknown (s : ViewState) (current : Option CurrentContentTab)
    (w : MainWindow) (hw : w.m_ViewState ≠ ViewState_Unknown) :
    (SetViewState s current w).m_ViewState ≠ ViewState_Unknown := by
  rcases SetViewState_m_ViewState s current w with h | h | h
  · rw [h]
    exact hw
  · rw [h]
    exact requestedViewState_ne_unknown s
  · rw [h]
    decide

/-- On an HTML tab that accepts the request (or is not asked), `SetViewState`
ends in the requested state. -/
theorem SetViewState_html_accept (s : ViewState) (tab : CurrentContentTab) (w : MainWindow)
    (hhtml : tab.resourceType = HTMLResourceType)
    (hacc : tab.isFlowTab = false ∨ w.m_ViewState = requestedViewState s ∨
      tab.SetViewState (requestedViewState s) = true) :
    (SetViewState s (some tab) w).m_ViewState = requestedViewState s := by
  have hcond : (decide (w.m_ViewState ≠ requestedViewState s) && tab.isFlowTab &&
      !(tab.SetViewState (requestedViewState s))) = false := by
    rcases hacc with h | h | h <;> simp [h]
  obtain ⟨h1, h2⟩ := UpdateViewState_html_accept
    (decide (w.m_ViewState ≠ requestedViewState s)) tab
    { w with m_ViewState := requestedViewState s } hhtml hcond
    (requestedViewState_ne_unknown s)
  rw [SetViewState_of_success s (some tab) w h1, h2]

/-- On an HTML flow tab that is asked and refuses, `SetViewState` fails. -/
theorem SetViewState_html_refuse (s : ViewState) (tab : CurrentContentTab) (w : MainWindow)
    (hhtml : tab.resourceType = HTMLResourceType) (hflow : tab.isFlowTab = true)
    (hne : w.m_ViewState ≠ requestedViewState s)
    (href : tab.SetViewState (requestedViewState s) = false) :
    updateSucceeds s (some tab) w = false := by
  unfold updateSucceeds
  have hd : decide (w.m_ViewState ≠ requestedViewState s) = true := by simp [hne]
  rw [hd, UpdateViewState_html_refuse tab { w with m_ViewState := requestedViewState s }
    hhtml hflow href]

theorem UpdateViewState_ne_unknown (b : Bool) (current : Option CurrentContentTab)
    (w : MainWindow) (hw : w.m_ViewState ≠ ViewState_Unknown) :
    (UpdateViewState b current w).2.m_ViewState ≠ ViewState_Unknown := by
  rcases UpdateViewState_m_ViewState b current w with h | h
  · rw [h]
    exact hw
  · rw [h]
    decide

theorem ToggleViewState_ne_unknown (current : Option CurrentContentTab) (w : MainWindow)
    (hw : w.m_ViewState ≠ ViewState_Unknown) :
    (ToggleViewState current w).m_ViewState ≠ ViewState_Unknown := by
  unfold ToggleViewState
  cases current with
  | none => exact hw
  | some tab =>
    simp only
    split_ifs
    · exact SetViewState_ne_unknown _ _ _ hw
    · exact SetViewState_ne_unknown _ _ _ hw
    · exact hw

theorem TabChanged_ne_unknown (d : Bool) (current : Option CurrentContentTab)
    (w : MainWindow) (hw : w.m_ViewState ≠ ViewState_Unknown) :
    (TabChanged d current w).m_ViewState ≠ ViewState_Unknown := by
  unfold TabChanged SetTabViewState
  apply SetViewState_ne_unknown
  unfold UpdateUiWhenTabsSwitch
  cases current with
  | none => exact hw
  | some tab =>
    apply UpdateViewState_ne_unknown
    rw [UpdateUIOnTabChanges_m_ViewState]
    exact hw

theorem OpenResource_ne_unknown (view_state : ViewState) (tab_changed d : Bool)
    (tab_during current : Option CurrentContentTab) (w : MainWindow)
    (hw : w.m_ViewState ≠ ViewState_Unknown) :
    (OpenResource view_state tab_changed d tab_during current w).m_ViewState
      ≠ ViewState_Unknown := by
  have ht := TabChanged_ne_unknown d tab_during w hw
  unfold OpenResource
  simp only
  split_ifs
  all_goals first
    | exact SetViewState_ne_unknown _ _ _ ht
    | exact SetViewState_ne_unknown _ _ _ hw
    | exact ht
    | exact hw

theorem ViewCall_run_ne_unknown (call : ViewCall) (current : Option CurrentContentTab)
    (w : MainWindow) (hw : w.m_ViewState ≠ ViewState_Unknown) :
    (call.run current w).m_ViewState ≠ ViewState_Unknown := by
  cases call with
  | SetViewState view_state => exact SetViewState_ne_unknown _ _ _ hw
  | SetTabViewState => exact SetViewState_ne_unknown _ _ _ hw
  | ToggleViewState => exact ToggleViewState_ne_unknown _ _ hw
  | BookView => exact SetViewState_ne_unknown _ _ _ hw
  | SplitView => exact SetViewState_ne_unknown _ _ _ hw
  | CodeView => exact SetViewState_ne_unknown _ _ _ hw
  | OpenResource view_state tab_changed d tab_during =>
    exact OpenResource_ne_unknown _ _ _ _ _ _ hw

theorem runCalls_ne_unknown (calls : List (ViewCall × Option CurrentContentTab)) :
    ∀ w : MainWindow, w.m_ViewState ≠ ViewState_Unknown →
      (runCalls calls w).m_ViewState ≠ ViewState_Unknown := by
  induction calls with
  | nil =>
    intro w hw
    exact hw
  | cons c rest ih =>
    intro w hw
    exact ih (c.1.run c.2 w) (ViewCall_run_ne_unknown c.1 c.2 w hw)

/-- On an HTML tab `ToggleViewState` requests BookView from CodeView and
CodeView from every other state. -/
theorem ToggleViewState_html (tab : CurrentContentTab) (w : MainWindow)
    (hhtml : tab.resourceType = HTMLResourceType) :
    ToggleViewState (some tab) w =
      if w.m_ViewState = ViewState_CodeView then SetViewState ViewState_BookView (some tab) w
      else SetViewState ViewState_CodeView (some tab) w := by
  unfold ToggleViewState
  simp only [if_pos hhtml]

/-! ## Claims on the view state -/

/-- C11: for an active HTML tab that accepts the requested state, and for
every prior view state, `SetViewState(s)` with `s` one of BookView,
PreviewView, CodeView ends with `GetViewState() == s`. -/
theorem C11_accepted_request_is_entered (s : ViewState) (tab : CurrentContentTab)
    (w : MainWindow)
    (hs : s = ViewState_BookView ∨ s = ViewState_PreviewView ∨ s = ViewState_CodeView)
    (hhtml : tab.resourceType = HTMLResourceType)
    (hacc : tab.SetViewState s = true) :
    GetViewState (SetViewState s (some tab) w) = s := by
  have hreq : requestedViewState s = s := by
    rcases hs with h | h | h <;> subst h <;> rfl
  have := SetViewState_html_accept s tab w hhtml (Or.inr (Or.inr (by rw [hreq]; exact hacc)))
  rw [hreq] at this
  exact this

theorem C11_accepted_request_is_entered_witness :
    GetViewState (SetViewState ViewState_PreviewView
      (some (exampleTab HTMLResourceType (fun _ => true))) (constructed Ui.allOff))
      = ViewState_PreviewView :=
  C11_accepted_request_is_entered ViewState_PreviewView
    (exampleTab HTMLResourceType (fun _ => true)) (constructed Ui.allOff)
    (Or.inr (Or.inl rfl)) rfl rfl

/-- C12, as stated, fails: from the prior state BookView, on an HTML flow tab
that refuses every state, `SetViewState(PreviewView)` ends in BookView, not
in CodeView. -/
theorem C12_counterexample :
    ¬ (∀ (tab : CurrentContentTab) (w : MainWindow),
        tab.resourceType = HTMLResourceType → tab.isFlowTab = true →
        (∀ s, tab.SetViewState s = false) →
        GetViewState (SetViewState ViewState_BookView (some tab) w) = ViewState_CodeView ∧
        GetViewState (SetViewState ViewState_PreviewView (some tab) w)
          = ViewState_CodeView) := by
  intro h
  have h2 := (h (exampleTab HTMLResourceType (fun _ => false)) (constructed Ui.allOff)
    rfl rfl (fun _ => rfl)).2
  have h3 : GetViewState (SetViewState ViewState_PreviewView
      (some (exampleTab HTMLResourceType (fun _ => false))) (constructed Ui.allOff))
      = ViewState_BookView := by
    rw [SetViewState_of_failure _ _ _
      (SetViewState_html_refuse ViewState_PreviewView _ _ rfl rfl (by decide) rfl)]
    rfl
  rw [h3] at h2
  exact absurd h2 (by decide)

/-- C12 (amended): for an active HTML tab that refuses the requested state,
when the view state before the request is CodeView, `SetViewState(BookView)`
and `SetViewState(PreviewView)` each fail and end with
`GetViewState() == CodeView`. -/
theorem C12_refused_request_from_code_view (s : ViewState) (tab : CurrentContentTab)
    (w : MainWindow)
    (hs : s = ViewState_BookView ∨ s = ViewState_PreviewView)
    (hhtml : tab.resourceType = HTMLResourceType) (hflow : tab.isFlowTab = true)
    (href : tab.SetViewState s = false)
    (hprior : GetViewState w = ViewState_CodeView) :
    updateSucceeds s (some tab) w = false ∧
    GetViewState (SetViewState s (some tab) w) = ViewState_CodeView := by
  have hreq : requestedViewState s = s := by
    rcases hs with h | h <;> subst h <;> rfl
  have hne : w.m_ViewState ≠ requestedViewState s := by
    rw [hreq]
    unfold GetViewState at hprior
    rw [hprior]
    rcases hs with h | h <;> subst h <;> decide
  have hfail := SetViewState_html_refuse s tab w hhtml hflow hne (by rw [hreq]; exact href)
  refine ⟨hfail, ?_⟩
  rw [SetViewState_of_failure s (some tab) w hfail]
  exact hprior

theorem C12_refused_request_from_code_view_witness :
    updateSucceeds ViewState_BookView (some (exampleTab HTMLResourceType (fun _ => false)))
      { m_ViewState := ViewState_CodeView, ui := Ui.allOff } = false ∧
    GetViewState (SetViewState ViewState_BookView
      (some (exampleTab HTMLResourceType (fun _ => false)))
      { m_ViewState := ViewState_CodeView, ui := Ui.allOff }) = ViewState_CodeView :=
  C12_refused_request_from_code_view ViewState_BookView
    (exampleTab HTMLResourceType (fun _ => false))
    { m_ViewState := ViewState_CodeView, ui := Ui.allOff } (Or.inl rfl) rfl rfl rfl rfl

/-- C13: whenever `UpdateViewState` reports failure inside `SetViewState(s)`,
`GetViewState()` after the call equals `GetViewState()` before it, for every
prior state and every requested `s`, and the Code-view action is left checked
with the Book-view and Split-view actions unchecked. -/
theorem C13_refusal_restores_view_state (s : ViewState)
    (current : Option CurrentContentTab) (w : MainWindow)
    (hfail : updateSucceeds s current w = false) :
    GetViewState (SetViewState s current w) = GetViewState w ∧
    (SetViewState s current w).ui.actionCodeView.checked = true ∧
    (SetViewState s current w).ui.actionBookView.checked = false ∧
    (SetViewState s current w).ui.actionSplitView.checked = false := by
  rw [SetViewState_of_failure s current w hfail]
  exact ⟨rfl, rfl, rfl, rfl⟩

theorem C13_refusal_restores_view_state_witness :
    GetViewState (SetViewState ViewState_PreviewView
      (some (exampleTab HTMLResourceType (fun _ => false))) (constructed Ui.allOff))
      = GetViewState (constructed Ui.allOff) ∧
    (SetViewState ViewState_PreviewView
      (some (exampleTab HTMLResourceType (fun _ => false)))
      (constructed Ui.allOff)).ui.actionCodeView.checked = true ∧
    (SetViewState ViewState_PreviewView
      (some (exampleTab HTMLResourceType (fun _ => false)))
      (constructed Ui.allOff)).ui.actionBookView.checked = false ∧
    (SetViewState ViewState_PreviewView
      (some (exampleTab HTMLResourceType (fun _ => false)))
      (constructed Ui.allOff)).ui.actionSplitView.checked = false :=
  C13_refusal_restores_view_state ViewState_PreviewView
    (some (exampleTab HTMLResourceType (fun _ => false))) (constructed Ui.allOff)
    (SetViewState_html_refuse ViewState_PreviewView _ _ rfl rfl (by decide) rfl)

/-- C14: `SetViewState(ViewState_Unknown)` is `SetViewState(ViewState_BookView)`:
for every prior window state (view state and action flags), every tab kind or
no tab, and every answer of the tab, both calls give the same window. -/
theorem C14_unknown_is_book_view (current : Option CurrentContentTab) (w : MainWindow) :
    SetViewState ViewState_Unknown current w = SetViewState ViewState_BookView current w := by
  unfold SetViewState
  rfl

/-- C15: starting from the constructor's initial state (BookView), after any
sequence of `SetViewState`, `SetTabViewState`, `ToggleViewState`, `BookView`,
`SplitView`, `CodeView` and `OpenResource` calls, each with any tab kind (or no
tab) and any answers of the tab, `GetViewState()` is one of BookView,
PreviewView, CodeView. -/
theorem C15_unknown_is_never_reached (calls : List (ViewCall × Option CurrentContentTab))
    (ui : Ui) :
    GetViewState (runCalls calls (constructed ui)) = ViewState_BookView ∨
    GetViewState (runCalls calls (constructed ui)) = ViewState_PreviewView ∨
    GetViewState (runCalls calls (constructed ui)) = ViewState_CodeView := by
  have h0 : (constructed ui).m_ViewState ≠ ViewState_Unknown := by
    show ViewState_BookView ≠ ViewState_Unknown
    decide
  have h := runCalls_ne_unknown calls (constructed ui) h0
  unfold GetViewState
  cases hv : (runCalls calls (constructed ui)).m_ViewState
  · exact absurd hv h
  · exact Or.inl rfl
  · exact Or.inr (Or.inl rfl)
  · exact Or.inr (Or.inr rfl)

/-- C16, as stated, fails: with a CSS tab active and the prior state BookView,
`SetViewState(CodeView)` is not rejected, the view state becomes CodeView. -/
theorem C16_counterexample :
    ¬ (∀ (tab : CurrentContentTab) (w : MainWindow) (s : ViewState),
        tab.resourceType ≠ HTMLResourceType →
        (s = ViewState_BookView ∨ s = ViewState_PreviewView ∨ s = ViewState_CodeView) →
        GetViewState (SetViewState s (some tab) w) = GetViewState w) := by
  intro h
  have h2 := h (exampleTab CSSResourceType (fun _ => false)) (constructed Ui.allOff)
    ViewState_CodeView (by decide) (Or.inr (Or.inr rfl))
  have h3 : GetViewState (SetViewState ViewState_CodeView
      (some (exampleTab CSSResourceType (fun _ => false))) (constructed Ui.allOff))
      = ViewState_CodeView := by
    decide
  rw [h3] at h2
  exact absurd h2 (by decide)

/-- C16 (amended): with a non-HTML tab active (raw or static), a request
`SetViewState(s)` for `s` one of BookView, PreviewView, CodeView is not
rejected: the tab is not asked, `GetViewState()` after the call equals `s`,
and the Book-view, Split-view and Code-view actions are disabled and
unchecked. -/
theorem C16_non_html_request_is_stored (s : ViewState) (tab : CurrentContentTab)
    (w : MainWindow)
    (hs : s = ViewState_BookView ∨ s = ViewState_PreviewView ∨ s = ViewState_CodeView)
    (hnon : tab.resourceType ≠ HTMLResourceType) :
    updateSucceeds s (some tab) w = true ∧
    GetViewState (SetViewState s (some tab) w) = s ∧
    (SetViewState s (some tab) w).ui.actionBookView = Action.off ∧
    (SetViewState s (some tab) w).ui.actionSplitView = Action.off ∧
    (SetViewState s (some tab) w).ui.actionCodeView = Action.off := by
  have hreq : requestedViewState s = s := by
    rcases hs with h | h | h <;> subst h <;> rfl
  have hsucc : updateSucceeds s (some tab) w = true := by
    unfold updateSucceeds UpdateViewState
    simp only [if_neg hnon]
    split_ifs <;> rfl
  refine ⟨hsucc, ?_⟩
  rw [SetViewState_of_success s (some tab) w hsucc, hreq]
  unfold UpdateViewState GetViewState
  simp only [if_neg hnon]
  split_ifs
  · rw [SetStateActionsRawView_m_ViewState]
    exact ⟨rfl, rfl, rfl, rfl⟩
  · rw [SetStateActionsStaticView_m_ViewState]
    exact ⟨rfl, rfl, rfl, rfl⟩

theorem C16_non_html_request_is_stored_witness :
    updateSucceeds ViewState_CodeView (some (exampleTab ImageResourceType (fun _ => false)))
      (constructed Ui.allOff) = true ∧
    GetViewState (SetViewState ViewState_CodeView
      (some (exampleTab ImageResourceType (fun _ => false))) (constructed Ui.allOff))
      = ViewState_CodeView ∧
    (SetViewState ViewState_CodeView
      (some (exampleTab ImageResourceType (fun _ => false)))
      (constructed Ui.allOff)).ui.actionBookView = Action.off ∧
    (SetViewState ViewState_CodeView
      (some (exampleTab ImageResourceType (fun _ => false)))
      (constructed Ui.allOff)).ui.actionSplitView = Action.off ∧
    (SetViewState ViewState_CodeView
      (some (exampleTab ImageResourceType (fun _ => false)))
      (constructed Ui.allOff)).ui.actionCodeView = Action.off :=
  C16_non_html_request_is_stored ViewState_CodeView
    (exampleTab ImageResourceType (fun _ => false)) (constructed Ui.allOff)
    (Or.inr (Or.inr rfl)) (by decide)

/-- C17, evaluated at a failing input: with no active tab, on a window in
BookView whose Book-view action is checked, `SetViewState(BookView)` keeps the
view state but unchecks the Book-view action and checks the Code-view action,
so the call is not a no-op on the action flags. -/
theorem C17_no_tab_checks_code_view :
    GetViewState exampleBookViewWindow = ViewState_BookView ∧
    exampleBookViewWindow.ui.actionBookView.checked = true ∧
    exampleBookViewWindow.ui.actionCodeView.checked = false ∧
    GetViewState (SetViewState ViewState_BookView none exampleBookViewWindow)
      = ViewState_BookView ∧
    (SetViewState ViewState_BookView none exampleBookViewWindow).ui.actionBookView.checked
      = false ∧
    (SetViewState ViewState_BookView none exampleBookViewWindow).ui.actionCodeView.checked
      = true ∧
    SetViewState ViewState_BookView none exampleBookViewWindow ≠ exampleBookViewWindow := by
  decide

/-- C18: on an active HTML tab that accepts the requested state,
`ToggleViewState` ends in BookView from CodeView and in CodeView from
BookView, so two toggles in a row return to the starting view. -/
theorem C18_toggle_flips_code_and_book (tab tab2 : CurrentContentTab) (w : MainWindow)
    (hhtml : tab.resourceType = HTMLResourceType)
    (hhtml2 : tab2.resourceType = HTMLResourceType)
    (hB : tab.SetViewState ViewState_BookView = true)
    (hC : tab.SetViewState ViewState_CodeView = true)
    (hB2 : tab2.SetViewState ViewState_BookView = true)
    (hC2 : tab2.SetViewState ViewState_CodeView = true) :
    (GetViewState w = ViewState_CodeView →
      GetViewState (ToggleViewState (some tab) w) = ViewState_BookView) ∧
    (GetViewState w = ViewState_BookView →
      GetViewState (ToggleViewState (some tab) w) = ViewState_CodeView) ∧
    (GetViewState w = ViewState_CodeView ∨ GetViewState w = ViewState_BookView →
      GetViewState (ToggleViewState (some tab2) (ToggleViewState (some tab) w))
        = GetViewState w) := by
  have step : ∀ (t : CurrentContentTab) (v : MainWindow),
      t.resourceType = HTMLResourceType →
      t.SetViewState ViewState_BookView = true → t.SetViewState ViewState_CodeView = true →
      (v.m_ViewState = ViewState_CodeView →
        (ToggleViewState (some t) v).m_ViewState = ViewState_BookView) ∧
      (v.m_ViewState = ViewState_BookView →
        (ToggleViewState (some t) v).m_ViewState = ViewState_CodeView) := by
    intro t v ht hb hc
    rw [ToggleViewState_html t v ht]
    constructor
    · intro hv
      rw [if_pos hv]
      exact SetViewState_html_accept ViewState_BookView t v ht (Or.inr (Or.inr hb))
    · intro hv
      rw [if_neg (by rw [hv]; decide)]
      exact SetViewState_html_accept ViewState_CodeView t v ht (Or.inr (Or.inr hc))
  unfold GetViewState
  obtain ⟨s1, s2⟩ := step tab w hhtml hB hC
  refine ⟨s1, s2, ?_⟩
  rintro (hv | hv)
  · rw [(step tab2 _ hhtml2 hB2 hC2).2 (s1 hv), hv]
  · rw [(step tab2 _ hhtml2 hB2 hC2).1 (s2 hv), hv]

theorem C18_toggle_flips_code_and_book_witness :
    GetViewState (ToggleViewState (some (exampleTab HTMLResourceType (fun _ => true)))
      (constructed Ui.allOff)) = ViewState_CodeView ∧
    GetViewState (ToggleViewState (some (exampleTab HTMLResourceType (fun _ => true)))
      (ToggleViewState (some (exampleTab HTMLResourceType (fun _ => true)))
        (constructed Ui.allOff))) = GetViewState (constructed Ui.allOff) :=
  ⟨(C18_toggle_flips_code_and_book (exampleTab HTMLResourceType (fun _ => true))
      (exampleTab HTMLResourceType (fun _ => true)) (constructed Ui.allOff)
      rfl rfl rfl rfl rfl rfl).2.1 rfl,
   (C18_toggle_flips_code_and_book (exampleTab HTMLResourceType (fun _ => true))
      (exampleTab HTMLResourceType (fun _ => true)) (constructed Ui.allOff)
      rfl rfl rfl rfl rfl rfl).2.2 (Or.inr rfl)⟩

/-- C19, as stated, fails: from the prior state PreviewView, on an HTML flow
tab that refuses CodeView, `ToggleViewState` leaves `GetViewState()` at
PreviewView. -/
theorem C19_counterexample :
    ¬ (∀ (tab : CurrentContentTab) (w : MainWindow),
        tab.resourceType = HTMLResourceType →
        GetViewState (ToggleViewState (some tab) w) ≠ ViewState_PreviewView) := by
  intro h
  apply h (exampleTab HTMLResourceType (fun _ => false))
    { m_ViewState := ViewState_PreviewView, ui := Ui.allOff } rfl
  decide

/-- C19 (amended): for an active HTML tab and every answer of the tab, if the
prior view state is not PreviewView then `GetViewState()` after
`ToggleViewState` is not PreviewView; from PreviewView the toggle requests
CodeView, ends in CodeView when the tab accepts (or is not a flow tab) and
stays in PreviewView only when the tab refuses. -/
theorem C19_toggle_never_enters_preview (tab : CurrentContentTab) (w : MainWindow)
    (hhtml : tab.resourceType = HTMLResourceType) :
    (GetViewState w ≠ ViewState_PreviewView →
      GetViewState (ToggleViewState (some tab) w) ≠ ViewState_PreviewView) ∧
    (GetViewState w = ViewState_PreviewView →
      tab.isFlowTab = false ∨ tab.SetViewState ViewState_CodeView = true →
      GetViewState (ToggleViewState (some tab) w) = ViewState_CodeView) ∧
    (GetViewState w = ViewState_PreviewView →
      tab.isFlowTab = true → tab.SetViewState ViewState_CodeView = false →
      GetViewState (ToggleViewState (some tab) w) = ViewState_PreviewView) := by
  unfold GetViewState
  rw [ToggleViewState_html tab w hhtml]
  refine ⟨?_, ?_, ?_⟩
  · intro hv
    split_ifs with hc
    · rcases SetViewState_m_ViewState ViewState_BookView (some tab) w with h | h | h
      · rw [h]
        exact hv
      · rw [h]
        decide
      · rw [h]
        decide
    · rcases SetViewState_m_ViewState ViewState_CodeView (some tab) w with h | h | h
      · rw [h]
        exact hv
      · rw [h]
        decide
      · rw [h]
        decide
  · intro hv hacc
    rw [if_neg (by rw [hv]; decide)]
    apply SetViewState_html_accept ViewState_CodeView tab w hhtml
    rcases hacc with h | h
    · exact Or.inl h
    · exact Or.inr (Or.inr h)
  · intro hv hflow href
    rw [if_neg (by rw [hv]; decide)]
    have hfail := SetViewState_html_refuse ViewState_CodeView tab w hhtml hflow
      (by rw [hv]; decide) href
    rw [SetViewState_of_failure _ _ _ hfail]
    exact hv

theorem C19_toggle_never_enters_preview_witness :
    GetViewState (ToggleViewState (some (exampleTab HTMLResourceType (fun _ => false)))
      (constructed Ui.allOff)) ≠ ViewState_PreviewView ∧
    GetViewState (ToggleViewState (some (exampleTab HTMLResourceType (fun _ => true)))
      { m_ViewState := ViewState_PreviewView, ui := Ui.allOff }) = ViewState_CodeView :=
  ⟨(C19_toggle_never_enters_preview (exampleTab HTMLResourceType (fun _ => false))
      (constructed Ui.allOff) rfl).1 (by decide),
   (C19_toggle_never_enters_preview (exampleTab HTMLResourceType (fun _ => true))
      { m_ViewState := ViewState_PreviewView, ui := Ui.allOff } rfl).2.1 rfl (Or.inr rfl)⟩

/-- C20: `ToggleViewState` is a no-op outside HTML tabs: when there is no
active tab, or the active tab's resource type is not HTML, the window (view
state and every action flag) is unchanged by the call. -/
theorem C20_toggle_outside_html_is_noop (current : Option CurrentContentTab)
    (w : MainWindow)
    (hnon : ∀ tab, current = some tab → tab.resourceType ≠ HTMLResourceType) :
    ToggleViewState current w = w := by
  unfold ToggleViewState
  cases current with
  | none => rfl
  | some tab =>
    simp only [if_neg (hnon tab rfl)]

theorem C20_toggle_outside_html_is_noop_witness :
    ToggleViewState none exampleBookViewWindow = exampleBookViewWindow ∧
    ToggleViewState (some (exampleTab CSSResourceType (fun _ => true))) exampleBookViewWindow
      = exampleBookViewWindow :=
  ⟨C20_toggle_outside_html_is_noop none exampleBookViewWindow (fun _ h => by cases h),
   C20_toggle_outside_html_is_noop (some (exampleTab CSSResourceType (fun _ => true)))
     exampleBookViewWindow (fun tab h => by cases h; decide)⟩

/-! ## Action sets: helper lemmas -/

theorem SetStateActionsCodeView_flags (tab : CurrentContentTab) (w : MainWindow) :
    fixedFlags (SetStateActionsCodeView (some tab) w).ui
      = derivedFlags ContentKind.HTML ViewState_CodeView ∧
    cutCopyPasteEnabled (SetStateActionsCodeView (some tab) w).ui = tab.cutCopyPaste :=
  ⟨rfl, rfl⟩

theorem SetStateActionsSplitView_flags (tab : CurrentContentTab) (w : MainWindow) :
    fixedFlags (SetStateActionsSplitView (some tab) w).ui
      = derivedFlags ContentKind.HTML ViewState_PreviewView ∧
    cutCopyPasteEnabled (SetStateActionsSplitView (some tab) w).ui = tab.cutCopyPaste :=
  ⟨rfl, rfl⟩

theorem SetStateActionsBookView_flags (tab : CurrentContentTab) (w : MainWindow) :
    fixedFlags (SetStateActionsBookView (some tab) w).ui
      = derivedFlags ContentKind.HTML ViewState_BookView ∧
    cutCopyPasteEnabled (SetStateActionsBookView (some tab) w).ui = tab.cutCopyPaste :=
  ⟨rfl, rfl⟩

theorem SetStateActionsRawView_flags (tab : CurrentContentTab) (w : MainWindow)
    (v : ViewState) :
    fixedFlags (SetStateActionsRawView (some tab) w).ui = derivedFlags ContentKind.Raw v ∧
    cutCopyPasteEnabled (SetStateActionsRawView (some tab) w).ui = tab.cutCopyPaste := by
  cases v <;> exact ⟨rfl, rfl⟩

theorem SetStateActionsStaticView_flags (tab : CurrentContentTab) (w : MainWindow)
    (v : ViewState) :
    fixedFlags (SetStateActionsStaticView (some tab) w).ui
      = derivedFlags ContentKind.Static v ∧
    cutCopyPasteEnabled (SetStateActionsStaticView (some tab) w).ui = tab.cutCopyPaste := by
  cases v <;> exact ⟨rfl, rfl⟩

/-- On an HTML tab a successful `UpdateViewState` applies the action set of
the view state the window holds (BookView for `ViewState_Unknown`). -/
theorem UpdateViewState_html_selects (b : Bool) (tab : CurrentContentTab) (w : MainWindow)
    (hhtml : tab.resourceType = HTMLResourceType)
    (hok : (UpdateViewState b (some tab) w).1 = true) :
    (w.m_ViewState = ViewState_CodeView →
      (UpdateViewState b (some tab) w).2 = SetStateActionsCodeView (some tab) w) ∧
    (w.m_ViewState = ViewState_PreviewView →
      (UpdateViewState b (some tab) w).2 = SetStateActionsSplitView (some tab) w) ∧
    (w.m_ViewState = ViewState_BookView →
      (UpdateViewState b (some tab) w).2 = SetStateActionsBookView (some tab) w) ∧
    (w.m_ViewState = ViewState_Unknown →
      (UpdateViewState b (some tab) w).2 = SetStateActionsBookView (some tab)
        { w with m_ViewState := ViewState_BookView }) := by
  unfold UpdateViewState at hok ⊢
  simp only [hhtml, if_true] at hok ⊢
  by_cases hc : (b && tab.isFlowTab && !tab.SetViewState w.m_ViewState) = true
  · rw [if_pos hc] at hok
    exact absurd hok Bool.false_ne_true
  · rw [if_neg hc]
    refine ⟨?_, ?_, ?_, ?_⟩ <;> intro hv <;> simp [hv]

/-- After a successful `UpdateViewState` the four tabulated flag groups are
those of the tab's content kind and the resulting view state, and Cut, Copy
and Paste are what the tab reports. -/
theorem UpdateViewState_flags (b : Bool) (tab : CurrentContentTab) (w : MainWindow)
    (hok : (UpdateViewState b (some tab) w).1 = true) :
    fixedFlags (UpdateViewState b (some tab) w).2.ui
      = derivedFlags (contentKind tab.resourceType)
          (UpdateViewState b (some tab) w).2.m_ViewState ∧
    cutCopyPasteEnabled (UpdateViewState b (some tab) w).2.ui = tab.cutCopyPaste := by
  by_cases hhtml : tab.resourceType = HTMLResourceType
  · have hk : contentKind tab.resourceType = ContentKind.HTML := by
      simp [contentKind, hhtml]
    obtain ⟨hC, hP, hB, hU⟩ := UpdateViewState_html_selects b tab w hhtml hok
    rw [hk]
    cases hv : w.m_ViewState
    · rw [hU hv, SetStateActionsBookView_m_ViewState]
      exact SetStateActionsBookView_flags tab _
    · rw [hB hv, SetStateActionsBookView_m_ViewState, hv]
      exact SetStateActionsBookView_flags tab _
    · rw [hP hv, SetStateActionsSplitView_m_ViewState, hv]
      exact SetStateActionsSplitView_flags tab _
    · rw [hC hv, SetStateActionsCodeView_m_ViewState, hv]
      exact SetStateActionsCodeView_flags tab _
  · unfold UpdateViewState
    simp only [if_neg hhtml]
    by_cases hraw : tab.resourceType = XMLResourceType ∨
        tab.resourceType = XPGTResourceType ∨ tab.resourceType = OPFResourceType ∨
        tab.resourceType = NCXResourceType ∨ tab.resourceType = TextResourceType ∨
        tab.resourceType = CSSResourceType
    · have hk : contentKind tab.resourceType = ContentKind.Raw := by
        simp only [contentKind, if_neg hhtml, if_pos hraw]
      rw [if_pos hraw, hk]
      exact SetStateActionsRawView_flags tab w _
    · have hk : contentKind tab.resourceType = ContentKind.Static := by
        simp only [contentKind, if_neg hhtml, if_neg hraw]
      rw [if_neg hraw, hk]
      exact SetStateActionsStaticView_flags tab w _

/-- On a non-HTML tab `UpdateViewState` always succeeds. -/
theorem UpdateViewState_non_html_succeeds (b : Bool) (tab : CurrentContentTab)
    (w : MainWindow) (hnon : tab.resourceType ≠ HTMLResourceType) :
    (UpdateViewState b (some tab) w).1 = true := by
  unfold UpdateViewState
  simp only [if_neg hnon]
  split_ifs <;> rfl

/-! ## Claims on the action sets -/

/-- C21, as stated, fails: on an HTML tab in CodeView that reports Cut, Copy
and Paste as enabled, the four alignment actions and the two list actions are
disabled after `UpdateViewState`. -/
theorem C21_counterexample :
    ¬ (∀ (b : Bool) (tab : CurrentContentTab) (w : MainWindow),
        tab.resourceType = HTMLResourceType → w.m_ViewState = ViewState_CodeView →
        (UpdateViewState b (some tab) w).1 = true →
        undoRedoEnabled (UpdateViewState b (some tab) w).2.ui = [true, true] ∧
        cutCopyPasteEnabled (UpdateViewState b (some tab) w).2.ui = [true, true, true] ∧
        richFormattingEnabled (UpdateViewState b (some tab) w).2.ui
          = List.replicate 18 true ∧
        findEnabled (UpdateViewState b (some tab) w).2.ui = [true, true, true] ∧
        replaceEnabled (UpdateViewState b (some tab) w).2.ui = List.replicate 5 true) := by
  intro h
  exact absurd
    (h false (exampleTabWithClipboard HTMLResourceType (fun _ => true))
      { m_ViewState := ViewState_CodeView, ui := Ui.allOff } rfl rfl (by decide)).2.2.1
    (by decide)

/-- C21 (amended): for an HTML tab in CodeView, after `UpdateViewState` selects
`SetStateActionsCodeView`, Undo/Redo are enabled; bold, italic, underline,
strikethrough and the headings are enabled while the four alignment actions
and the bulleted and numbered lists are disabled; Cut/Copy/Paste are enabled
exactly as the tab reports; Find/FindNext/FindPrevious and
ReplaceNext/ReplacePrevious/ReplaceAll/Count/GoToLine are enabled. -/
theorem C21_code_view_action_set (b : Bool) (tab : CurrentContentTab) (w : MainWindow)
    (hhtml : tab.resourceType = HTMLResourceType)
    (hv : w.m_ViewState = ViewState_CodeView)
    (hok : (UpdateViewState b (some tab) w).1 = true) :
    (UpdateViewState b (some tab) w).2 = SetStateActionsCodeView (some tab) w ∧
    undoRedoEnabled (UpdateViewState b (some tab) w).2.ui = [true, true] ∧
    cutCopyPasteEnabled (UpdateViewState b (some tab) w).2.ui
      = [tab.CutEnabled, tab.CopyEnabled, tab.PasteEnabled] ∧
    richFormattingEnabled (UpdateViewState b (some tab) w).2.ui
      = [true, true, true, true, false, false, false, false, false, false,
         true, true, true, true, true, true, true, true] ∧
    findEnabled (UpdateViewState b (some tab) w).2.ui = [true, true, true] ∧
    replaceEnabled (UpdateViewState b (some tab) w).2.ui = List.replicate 5 true := by
  have hsel := (UpdateViewState_html_selects b tab w hhtml hok).1 hv
  rw [hsel]
  exact ⟨rfl, rfl, rfl, rfl, rfl, rfl⟩

theorem C21_code_view_action_set_witness :
    richFormattingEnabled (UpdateViewState false
        (some (exampleTabWithClipboard HTMLResourceType (fun _ => true)))
        { m_ViewState := ViewState_CodeView, ui := Ui.allOff }).2.ui
      = [true, true, true, true, false, false, false, false, false, false,
         true, true, true, true, true, true, true, true] :=
  (C21_code_view_action_set false (exampleTabWithClipboard HTMLResourceType (fun _ => true))
    { m_ViewState := ViewState_CodeView, ui := Ui.allOff } rfl rfl (by decide)).2.2.2.1

/-- C22, as stated, fails: on an HTML tab in BookView that reports Cut, Copy
and Paste as not enabled, the three actions are disabled after
`UpdateViewState`. -/
theorem C22_counterexample :
    ¬ (∀ (b : Bool) (tab : CurrentContentTab) (w : MainWindow),
        tab.resourceType = HTMLResourceType → w.m_ViewState = ViewState_BookView →
        (UpdateViewState b (some tab) w).1 = true →
        undoRedoEnabled (UpdateViewState b (some tab) w).2.ui = [true, true] ∧
        cutCopyPasteEnabled (UpdateViewState b (some tab) w).2.ui = [true, true, true] ∧
        richFormattingEnabled (UpdateViewState b (some tab) w).2.ui
          = List.replicate 18 true ∧
        findEnabled (UpdateViewState b (some tab) w).2.ui = [true, true, true] ∧
        replaceEnabled (UpdateViewState b (some tab) w).2.ui = List.replicate 5 false) := by
  intro h
  exact absurd
    (h false (exampleTab HTMLResourceType (fun _ => true)) (constructed Ui.allOff)
      rfl rfl (by decide)).2.1
    (by decide)

/-- C22 (amended): for an HTML tab in BookView, after `UpdateViewState` selects
`SetStateActionsBookView`, Undo/Redo are enabled, all rich-formatting actions
are enabled, Cut/Copy/Paste are enabled exactly as the tab reports,
Find/FindNext/FindPrevious are enabled and
ReplaceNext/ReplacePrevious/ReplaceAll/Count/GoToLine are disabled. -/
theorem C22_book_view_action_set (b : Bool) (tab : CurrentContentTab) (w : MainWindow)
    (hhtml : tab.resourceType = HTMLResourceType)
    (hv : w.m_ViewState = ViewState_BookView)
    (hok : (UpdateViewState b (some tab) w).1 = true) :
    (UpdateViewState b (some tab) w).2 = SetStateActionsBookView (some tab) w ∧
    undoRedoEnabled (UpdateViewState b (some tab) w).2.ui = [true, true] ∧
    cutCopyPasteEnabled (UpdateViewState b (some tab) w).2.ui
      = [tab.CutEnabled, tab.CopyEnabled, tab.PasteEnabled] ∧
    richFormattingEnabled (UpdateViewState b (some tab) w).2.ui = List.replicate 18 true ∧
    findEnabled (UpdateViewState b (some tab) w).2.ui = [true, true, true] ∧
    replaceEnabled (UpdateViewState b (some tab) w).2.ui = List.replicate 5 false := by
  have hsel := (UpdateViewState_html_selects b tab w hhtml hok).2.2.1 hv
  rw [hsel]
  exact ⟨rfl, rfl, rfl, rfl, rfl, rfl⟩

theorem C22_book_view_action_set_witness :
    cutCopyPasteEnabled (UpdateViewState false
        (some (exampleTabWithClipboard HTMLResourceType (fun _ => true)))
        (constructed Ui.allOff)).2.ui = [true, true, true] ∧
    replaceEnabled (UpdateViewState false
        (some (exampleTabWithClipboard HTMLResourceType (fun _ => true)))
        (constructed Ui.allOff)).2.ui = List.replicate 5 false :=
  ⟨(C22_book_view_action_set false (exampleTabWithClipboard HTMLResourceType (fun _ => true))
      (constructed Ui.allOff) rfl rfl (by decide)).2.2.1,
   (C22_book_view_action_set false (exampleTabWithClipboard HTMLResourceType (fun _ => true))
      (constructed Ui.allOff) rfl rfl (by decide)).2.2.2.2.2⟩

/-- C23, as stated, fails: on an HTML tab in PreviewView that reports Cut, Copy
and Paste as enabled, the three actions are enabled after `UpdateViewState`. -/
theorem C23_counterexample :
    ¬ (∀ (b : Bool) (tab : CurrentContentTab) (w : MainWindow),
        tab.resourceType = HTMLResourceType → w.m_ViewState = ViewState_PreviewView →
        (UpdateViewState b (some tab) w).1 = true →
        undoRedoEnabled (UpdateViewState b (some tab) w).2.ui = [false, false] ∧
        cutCopyPasteEnabled (UpdateViewState b (some tab) w).2.ui = [false, false, false] ∧
        richFormattingEnabled (UpdateViewState b (some tab) w).2.ui
          = List.replicate 18 false ∧
        findEnabled (UpdateViewState b (some tab) w).2.ui = [true, true, true] ∧
        replaceEnabled (UpdateViewState b (some tab) w).2.ui = List.replicate 5 false) := by
  intro h
  exact absurd
    (h false (exampleTabWithClipboard HTMLResourceType (fun _ => true))
      { m_ViewState := ViewState_PreviewView, ui := Ui.allOff } rfl rfl (by decide)).2.1
    (by decide)

/-- C23 (amended): for an HTML tab in PreviewView, after `UpdateViewState`
selects `SetStateActionsSplitView`, Undo/Redo and every rich-formatting action
are disabled, Cut/Copy/Paste are enabled exactly as the tab reports,
Find/FindNext/FindPrevious are enabled and
ReplaceNext/ReplacePrevious/ReplaceAll/Count/GoToLine are disabled. -/
theorem C23_split_view_action_set (b : Bool) (tab : CurrentContentTab) (w : MainWindow)
    (hhtml : tab.resourceType = HTMLResourceType)
    (hv : w.m_ViewState = ViewState_PreviewView)
    (hok : (UpdateViewState b (some tab) w).1 = true) :
    (UpdateViewState b (some tab) w).2 = SetStateActionsSplitView (some tab) w ∧
    undoRedoEnabled (UpdateViewState b (some tab) w).2.ui = [false, false] ∧
    cutCopyPasteEnabled (UpdateViewState b (some tab) w).2.ui
      = [tab.CutEnabled, tab.CopyEnabled, tab.PasteEnabled] ∧
    richFormattingEnabled (UpdateViewState b (some tab) w).2.ui = List.replicate 18 false ∧
    findEnabled (UpdateViewState b (some tab) w).2.ui = [true, true, true] ∧
    replaceEnabled (UpdateViewState b (some tab) w).2.ui = List.replicate 5 false := by
  have hsel := (UpdateViewState_html_selects b tab w hhtml hok).2.1 hv
  rw [hsel]
  exact ⟨rfl, rfl, rfl, rfl, rfl, rfl⟩

theorem C23_split_view_action_set_witness :
    undoRedoEnabled (UpdateViewState false
        (some (exampleTab HTMLResourceType (fun _ => true)))
        { m_ViewState := ViewState_PreviewView, ui := Ui.allOff }).2.ui = [false, false] ∧
    cutCopyPasteEnabled (UpdateViewState false
        (some (exampleTab HTMLResourceType (fun _ => true)))
        { m_ViewState := ViewState_PreviewView, ui := Ui.allOff }).2.ui
      = [false, false, false] :=
  ⟨(C23_split_view_action_set false (exampleTab HTMLResourceType (fun _ => true))
      { m_ViewState := ViewState_PreviewView, ui := Ui.allOff } rfl rfl (by decide)).2.1,
   (C23_split_view_action_set false (exampleTab HTMLResourceType (fun _ => true))
      { m_ViewState := ViewState_PreviewView, ui := Ui.allOff } rfl rfl (by decide)).2.2.1⟩

/-- C24, as stated, fails: on a CSS tab that reports Cut, Copy and Paste as
enabled, the three actions are enabled after `UpdateViewState`. -/
theorem C24_counterexample :
    ¬ (∀ (b : Bool) (tab : CurrentContentTab) (w : MainWindow),
        contentKind tab.resourceType = ContentKind.Raw →
        (UpdateViewState b (some tab) w).2 = SetStateActionsRawView (some tab) w ∧
        undoRedoEnabled (UpdateViewState b (some tab) w).2.ui = [true, true] ∧
        cutCopyPasteEnabled (UpdateViewState b (some tab) w).2.ui = [false, false, false] ∧
        richFormattingEnabled (UpdateViewState b (some tab) w).2.ui
          = List.replicate 18 false ∧
        findEnabled (UpdateViewState b (some tab) w).2.ui = [true, true, true] ∧
        replaceEnabled (UpdateViewState b (some tab) w).2.ui = List.replicate 5 true) := by
  intro h
  exact absurd
    (h false (exampleTabWithClipboard CSSResourceType (fun _ => true))
      (constructed Ui.allOff) (by decide)).2.2.1
    (by decide)

/-- C24 (amended): for every resource type in {XML, XPGT, OPF, NCX, Text, CSS}
and every view state, `UpdateViewState` selects `SetStateActionsRawView`, after
which Undo/Redo are enabled, every rich-formatting action is disabled,
Cut/Copy/Paste are enabled exactly as the tab reports,
Find/FindNext/FindPrevious are enabled and
ReplaceNext/ReplacePrevious/ReplaceAll/Count/GoToLine are enabled. -/
theorem C24_raw_view_action_set (b : Bool) (tab : CurrentContentTab) (w : MainWindow)
    (hraw : tab.resourceType = XMLResourceType ∨ tab.resourceType = XPGTResourceType ∨
      tab.resourceType = OPFResourceType ∨ tab.resourceType = NCXResourceType ∨
      tab.resourceType = TextResourceType ∨ tab.resourceType = CSSResourceType) :
    (UpdateViewState b (some tab) w).1 = true ∧
    (UpdateViewState b (some tab) w).2 = SetStateActionsRawView (some tab) w ∧
    undoRedoEnabled (UpdateViewState b (some tab) w).2.ui = [true, true] ∧
    cutCopyPasteEnabled (UpdateViewState b (some tab) w).2.ui
      = [tab.CutEnabled, tab.CopyEnabled, tab.PasteEnabled] ∧
    richFormattingEnabled (UpdateViewState b (some tab) w).2.ui = List.replicate 18 false ∧
    findEnabled (UpdateViewState b (some tab) w).2.ui = [true, true, true] ∧
    replaceEnabled (UpdateViewState b (some tab) w).2.ui = List.replicate 5 true := by
  have hnon : tab.resourceType ≠ HTMLResourceType := by
    rcases hraw with h | h | h | h | h | h <;> rw [h] <;> decide
  have hsel : UpdateViewState b (some tab) w = (true, SetStateActionsRawView (some tab) w) := by
    unfold UpdateViewState
    simp only [if_neg hnon, if_pos hraw]
  rw [hsel]
  exact ⟨rfl, rfl, rfl, rfl, rfl, rfl, rfl⟩

theorem C24_raw_view_action_set_witness :
    (UpdateViewState true (some (exampleTab OPFResourceType (fun _ => false)))
      { m_ViewState := ViewState_CodeView, ui := Ui.allOff }).1 = true ∧
    replaceEnabled (UpdateViewState true (some (exampleTab OPFResourceType (fun _ => false)))
      { m_ViewState := ViewState_CodeView, ui := Ui.allOff }).2.ui = List.replicate 5 true :=
  ⟨(C24_raw_view_action_set true (exampleTab OPFResourceType (fun _ => false))
      { m_ViewState := ViewState_CodeView, ui := Ui.allOff }
      (Or.inr (Or.inr (Or.inl rfl)))).1,
   (C24_raw_view_action_set true (exampleTab OPFResourceType (fun _ => false))
      { m_ViewState := ViewState_CodeView, ui := Ui.allOff }
      (Or.inr (Or.inr (Or.inl rfl)))).2.2.2.2.2.2⟩

/-- C25, as stated, fails: on an image tab that reports Cut, Copy and Paste as
enabled, the three actions are enabled after `UpdateViewState`. -/
theorem C25_counterexample :
    ¬ (∀ (b : Bool) (tab : CurrentContentTab) (w : MainWindow),
        contentKind tab.resourceType = ContentKind.Static →
        (UpdateViewState b (some tab) w).2 = SetStateActionsStaticView (some tab) w ∧
        undoRedoEnabled (UpdateViewState b (some tab) w).2.ui = [false, false] ∧
        cutCopyPasteEnabled (UpdateViewState b (some tab) w).2.ui = [false, false, false] ∧
        richFormattingEnabled (UpdateViewState b (some tab) w).2.ui
          = List.replicate 18 false ∧
        findEnabled (UpdateViewState b (some tab) w).2.ui = [false, false, false] ∧
        replaceEnabled (UpdateViewState b (some tab) w).2.ui = List.replicate 5 false) := by
  intro h
  exact absurd
    (h false (exampleTabWithClipboard ImageResourceType (fun _ => true))
      (constructed Ui.allOff) (by decide)).2.2.1
    (by decide)

/-- C25 (amended): for every resource type that is neither HTML nor one of the
raw types and every view state, `UpdateViewState` selects
`SetStateActionsStaticView`, after which Undo/Redo, every rich-formatting
action, Find/FindNext/FindPrevious and
ReplaceNext/ReplacePrevious/ReplaceAll/Count/GoToLine are disabled, and
Cut/Copy/Paste are enabled exactly as the tab reports. -/
theorem C25_static_view_action_set (b : Bool) (tab : CurrentContentTab) (w : MainWindow)
    (hnon : tab.resourceType ≠ HTMLResourceType)
    (hnraw : ¬ (tab.resourceType = XMLResourceType ∨ tab.resourceType = XPGTResourceType ∨
      tab.resourceType = OPFResourceType ∨ tab.resourceType = NCXResourceType ∨
      tab.resourceType = TextResourceType ∨ tab.resourceType = CSSResourceType)) :
    (UpdateViewState b (some tab) w).1 = true ∧
    (UpdateViewState b (some tab) w).2 = SetStateActionsStaticView (some tab) w ∧
    undoRedoEnabled (UpdateViewState b (some tab) w).2.ui = [false, false] ∧
    cutCopyPasteEnabled (UpdateViewState b (some tab) w).2.ui
      = [tab.CutEnabled, tab.CopyEnabled, tab.PasteEnabled] ∧
    richFormattingEnabled (UpdateViewState b (some tab) w).2.ui = List.replicate 18 false ∧
    findEnabled (UpdateViewState b (some tab) w).2.ui = [false, false, false] ∧
    replaceEnabled (UpdateViewState b (some tab) w).2.ui = List.replicate 5 false := by
  have hsel : UpdateViewState b (some tab) w
      = (true, SetStateActionsStaticView (some tab) w) := by
    unfold UpdateViewState
    simp only [if_neg hnon, if_neg hnraw]
  rw [hsel]
  exact ⟨rfl, rfl, rfl, rfl, rfl, rfl, rfl⟩

theorem C25_static_view_action_set_witness :
    (UpdateViewState true (some (exampleTab ImageResourceType (fun _ => false)))
      (constructed Ui.allOff)).1 = true ∧
    findEnabled (UpdateViewState true (some (exampleTab ImageResourceType (fun _ => false)))
      (constructed Ui.allOff)).2.ui = [false, false, false] :=
  ⟨(C25_static_view_action_set true (exampleTab ImageResourceType (fun _ => false))
      (constructed Ui.allOff) (by decide) (by decide)).1,
   (C25_static_view_action_set true (exampleTab ImageResourceType (fun _ => false))
      (constructed Ui.allOff) (by decide) (by decide)).2.2.2.2.2.1⟩

/-- C26, as stated, fails: two HTML tabs in BookView, one reporting Cut, Copy
and Paste as enabled and the other not, end with different Cut/Copy/Paste
flags. -/
theorem C26_counterexample :
    ¬ (∀ (b1 b2 : Bool) (tab1 tab2 : CurrentContentTab) (w1 w2 : MainWindow),
        contentKind tab1.resourceType = contentKind tab2.resourceType →
        (UpdateViewState b1 (some tab1) w1).2.m_ViewState
          = (UpdateViewState b2 (some tab2) w2).2.m_ViewState →
        fixedFlags (UpdateViewState b1 (some tab1) w1).2.ui
          = fixedFlags (UpdateViewState b2 (some tab2) w2).2.ui ∧
        cutCopyPasteEnabled (UpdateViewState b1 (some tab1) w1).2.ui
          = cutCopyPasteEnabled (UpdateViewState b2 (some tab2) w2).2.ui) := by
  intro h
  exact absurd
    (h false false (exampleTab HTMLResourceType (fun _ => true))
      (exampleTabWithClipboard HTMLResourceType (fun _ => true))
      (constructed Ui.allOff) (constructed Ui.allOff) rfl (by decide)).2
    (by decide)

/-- C26 (amended): for any two runs of `UpdateViewState` that return true,
whose active tabs have the same content kind and which end in the same view
state, the resulting enabled flags of Undo/Redo, the rich-formatting actions,
Find and Replace/Count/GoToLine are identical, whatever else the two tabs
report; the enabled flags of Cut/Copy/Paste are those each tab reports. -/
theorem C26_action_set_depends_on_kind_and_view (b1 b2 : Bool)
    (tab1 tab2 : CurrentContentTab) (w1 w2 : MainWindow)
    (hk : contentKind tab1.resourceType = contentKind tab2.resourceType)
    (hv : (UpdateViewState b1 (some tab1) w1).2.m_ViewState
      = (UpdateViewState b2 (some tab2) w2).2.m_ViewState)
    (hok1 : (UpdateViewState b1 (some tab1) w1).1 = true)
    (hok2 : (UpdateViewState b2 (some tab2) w2).1 = true) :
    undoRedoEnabled (UpdateViewState b1 (some tab1) w1).2.ui
      = undoRedoEnabled (UpdateViewState b2 (some tab2) w2).2.ui ∧
    richFormattingEnabled (UpdateViewState b1 (some tab1) w1).2.ui
      = richFormattingEnabled (UpdateViewState b2 (some tab2) w2).2.ui ∧
    findEnabled (UpdateViewState b1 (some tab1) w1).2.ui
      = findEnabled (UpdateViewState b2 (some tab2) w2).2.ui ∧
    replaceEnabled (UpdateViewState b1 (some tab1) w1).2.ui
      = replaceEnabled (UpdateViewState b2 (some tab2) w2).2.ui ∧
    cutCopyPasteEnabled (UpdateViewState b1 (some tab1) w1).2.ui
      = [tab1.CutEnabled, tab1.CopyEnabled, tab1.PasteEnabled] ∧
    cutCopyPasteEnabled (UpdateViewState b2 (some tab2) w2).2.ui
      = [tab2.CutEnabled, tab2.CopyEnabled, tab2.PasteEnabled] := by
  obtain ⟨f1, c1⟩ := UpdateViewState_flags b1 tab1 w1 hok1
  obtain ⟨f2, c2⟩ := UpdateViewState_flags b2 tab2 w2 hok2
  have hf : fixedFlags (UpdateViewState b1 (some tab1) w1).2.ui
      = fixedFlags (UpdateViewState b2 (some tab2) w2).2.ui := by
    rw [f1, f2, hk, hv]
  unfold fixedFlags at hf
  simp only [Prod.mk.injEq] at hf
  exact ⟨hf.1, hf.2.1, hf.2.2.1, hf.2.2.2, c1, c2⟩

theorem C26_action_set_depends_on_kind_and_view_witness :
    richFormattingEnabled (UpdateViewState false
        (some (exampleTab HTMLResourceType (fun _ => true))) (constructed Ui.allOff)).2.ui
      = richFormattingEnabled (UpdateViewState true
        (some (exampleTabWithClipboard HTMLResourceType (fun _ => true)))
        { m_ViewState := ViewState_Unknown, ui := Ui.allOff }).2.ui :=
  (C26_action_set_depends_on_kind_and_view false true
    (exampleTab HTMLResourceType (fun _ => true))
    (exampleTabWithClipboard HTMLResourceType (fun _ => true))
    (constructed Ui.allOff) { m_ViewState := ViewState_Unknown, ui := Ui.allOff }
    rfl (by decide) (by decide) (by decide)).2.1

/-! ## Zoom stepping off the grid: helper lemmas -/

/-- The call `ZoomByStep` hands `zoomStepRequest` to `ZoomByFactor`. -/
theorem ZoomByStep_eq_request (round : ℚ → ℚ) (zoom_in : Bool) (tab : ContentTab) :
    ZoomByStep round zoom_in (some tab)
      = ZoomByFactor (zoomStepRequest round zoom_in tab.GetZoomFactor) (some tab) := by
  unfold ZoomByStep zoomStepRequest
  simp only
  split_ifs <;> rfl

/-! ## Claims on zoom stepping and recent files -/

/-- C28, evaluated at a failing input: on a window in BookView whose Book-view
action is checked, a request for PreviewView that an HTML flow tab refuses
leaves the view state at BookView but checks the Code-view action and unchecks
the Book-view action, so the checked action does not agree with
`GetViewState()`. -/
theorem C28_refused_request_from_book_view :
    GetViewState exampleBookViewWindow = ViewState_BookView ∧
    exampleBookViewWindow.ui.actionBookView.checked = true ∧
    GetViewState (SetViewState ViewState_PreviewView
      (some (exampleTab HTMLResourceType (fun _ => false))) exampleBookViewWindow)
      = ViewState_BookView ∧
    (SetViewState ViewState_PreviewView
      (some (exampleTab HTMLResourceType (fun _ => false)))
      exampleBookViewWindow).ui.actionBookView.checked = false ∧
    (SetViewState ViewState_PreviewView
      (some (exampleTab HTMLResourceType (fun _ => false)))
      exampleBookViewWindow).ui.actionSplitView.checked = false ∧
    (SetViewState ViewState_PreviewView
      (some (exampleTab HTMLResourceType (fun _ => false)))
      exampleBookViewWindow).ui.actionCodeView.checked = true := by
  decide

/-- C29: for every current factor `c` in `[0.09, 5.0]` and every rounding to
the nearest tenth, the factor `ZoomByStep` requests when zooming in is
strictly greater than `c` and the one it requests when zooming out is
strictly less than `c`; so after `ZoomIn` the tab's factor is at least `c`,
after `ZoomOut` it is at most `c`, and it is unchanged exactly when the
request fell outside `[0.09, 5.0]`. -/
theorem C29_zoom_step_direction (round : ℚ → ℚ) (hr : RoundsToNearestTenth round)
    (tab : ContentTab) (_h0 : 9 / 100 ≤ tab.zoomFactor) (_h1 : tab.zoomFactor ≤ 5) :
    (ZoomIn round (some tab)
        = ZoomByFactor (zoomStepRequest round true tab.zoomFactor) (some tab) ∧
      tab.zoomFactor < zoomStepRequest round true tab.zoomFactor) ∧
    (ZoomOut round (some tab)
        = ZoomByFactor (zoomStepRequest round false tab.zoomFactor) (some tab) ∧
      zoomStepRequest round false tab.zoomFactor < tab.zoomFactor) ∧
    (∃ t : ContentTab, ZoomIn round (some tab) = some t ∧ tab.zoomFactor ≤ t.zoomFactor ∧
      (t.zoomFactor = tab.zoomFactor ↔
        zoomStepRequest round true tab.zoomFactor < 9 / 100 ∨
        5 < zoomStepRequest round true tab.zoomFactor)) ∧
    (∃ t : ContentTab, ZoomOut round (some tab) = some t ∧ t.zoomFactor ≤ tab.zoomFactor ∧
      (t.zoomFactor = tab.zoomFactor ↔
        zoomStepRequest round false tab.zoomFactor < 9 / 100 ∨
        5 < zoomStepRequest round false tab.zoomFactor)) := by
  have hin : tab.zoomFactor < zoomStepRequest round true tab.zoomFactor := by
    have a1 := abs_le.mp (hr (tab.zoomFactor + 5 / 100)).2
    have a2 := abs_le.mp (hr (tab.zoomFactor + ZOOM_STEP)).2
    unfold ZOOM_STEP at a2
    simp only [zoomStepRequest, if_true]
    split_ifs with h
    · unfold ZOOM_STEP
      linarith [a2.1]
    · rcases lt_or_eq_of_le (by linarith [a1.1] :
        tab.zoomFactor ≤ round (tab.zoomFactor + 5 / 100)) with hlt | heq
      · exact hlt
      · exfalso
        apply h
        rw [← heq, sub_self, abs_zero]
        norm_num
  have hout : zoomStepRequest round false tab.zoomFactor < tab.zoomFactor := by
    have a1 := abs_le.mp (hr (tab.zoomFactor + -(5 / 100))).2
    have a2 := abs_le.mp (hr (tab.zoomFactor + -ZOOM_STEP)).2
    unfold ZOOM_STEP at a2
    simp only [zoomStepRequest, Bool.false_eq_true, if_false]
    split_ifs with h
    · unfold ZOOM_STEP
      linarith [a2.2]
    · rcases lt_or_eq_of_le (by linarith [a1.2] :
        round (tab.zoomFactor + -(5 / 100)) ≤ tab.zoomFactor) with hlt | heq
      · exact hlt
      · exfalso
        apply h
        rw [heq, sub_self, abs_zero]
        norm_num
  have ein : ZoomIn round (some tab)
      = ZoomByFactor (zoomStepRequest round true tab.zoomFactor) (some tab) :=
    ZoomByStep_eq_request round true tab
  have eout : ZoomOut round (some tab)
      = ZoomByFactor (zoomStepRequest round false tab.zoomFactor) (some tab) :=
    ZoomByStep_eq_request round false tab
  refine ⟨⟨ein, hin⟩, ⟨eout, hout⟩, ?_, ?_⟩
  · rw [ein]
    by_cases hrange : 9 / 100 ≤ zoomStepRequest round true tab.zoomFactor ∧
        zoomStepRequest round true tab.zoomFactor ≤ 5
    · refine ⟨tab.SetZoomFactor (zoomStepRequest round true tab.zoomFactor),
        ZoomByFactor_in_range tab hrange.1 hrange.2, le_of_lt hin, ?_⟩
      constructor
      · intro h
        exact absurd h (ne_of_gt hin)
      · rintro (h | h) <;> linarith [hrange.1, hrange.2]
    · have hout2 : zoomStepRequest round true tab.zoomFactor < 9 / 100 ∨
          5 < zoomStepRequest round true tab.zoomFactor := by
        by_contra hc
        push_neg at hc
        exact hrange ⟨hc.1, hc.2⟩
      exact ⟨tab, ZoomByFactor_out_of_range tab hout2, le_refl _, fun _ => hout2, fun _ => rfl⟩
  · rw [eout]
    by_cases hrange : 9 / 100 ≤ zoomStepRequest round false tab.zoomFactor ∧
        zoomStepRequest round false tab.zoomFactor ≤ 5
    · refine ⟨tab.SetZoomFactor (zoomStepRequest round false tab.zoomFactor),
        ZoomByFactor_in_range tab hrange.1 hrange.2, le_of_lt hout, ?_⟩
      constructor
      · intro h
        exact absurd h (ne_of_lt hout)
      · rintro (h | h) <;> linarith [hrange.1, hrange.2]
    · have hout2 : zoomStepRequest round false tab.zoomFactor < 9 / 100 ∨
          5 < zoomStepRequest round false tab.zoomFactor := by
        by_contra hc
        push_neg at hc
        exact hrange ⟨hc.1, hc.2⟩
      exact ⟨tab, ZoomByFactor_out_of_range tab hout2, le_refl _, fun _ => hout2, fun _ => rfl⟩

theorem C29_zoom_step_direction_witness :
    (103 : ℚ) / 100 < zoomStepRequest RoundToOneDecimal true (103 / 100) ∧
    zoomStepRequest RoundToOneDecimal false (103 / 100) < (103 : ℚ) / 100 :=
  ⟨(C29_zoom_step_direction RoundToOneDecimal RoundToOneDecimal_nearest ⟨103 / 100⟩
      (by norm_num) (by norm_num)).1.2,
   (C29_zoom_step_direction RoundToOneDecimal RoundToOneDecimal_nearest ⟨103 / 100⟩
      (by norm_num) (by norm_num)).2.1.2⟩

/-- The trimming loop keeps the first `MAX_RECENT_FILES` entries. -/
theorem removeLastWhileOver_eq_take (MAX : ℕ) :
    ∀ (n : ℕ) (l : List String), l.length = n → removeLastWhileOver MAX l = l.take MAX := by
  intro n
  induction n using Nat.strong_induction_on with
  | _ n ih =>
    intro l hl
    rw [removeLastWhileOver]
    split_ifs with h
    · have hlen : l.dropLast.length = n - 1 := by
        rw [List.length_dropLast, hl]
      rw [ih (n - 1) (by omega) l.dropLast hlen, List.dropLast_eq_take, List.take_take]
      congr 1
      omega
    · rw [List.take_of_length_le (by omega)]

/-- The recent-files list after `UpdateUiWithCurrentFile` with a non-empty
path: the path, then the other prior entries, cut to `MAX_RECENT_FILES`. -/
theorem UpdateUiWithCurrentFile_list (MAX : ℕ) (path : String) (st : RecentFiles)
    (hpath : path ≠ "") :
    (UpdateUiWithCurrentFile MAX path st).s_RecentFiles
      = (path :: st.s_RecentFiles.filter (fun f => f ≠ path)).take MAX := by
  unfold UpdateUiWithCurrentFile
  simp only [if_neg hpath]
  exact removeLastWhileOver_eq_take MAX _ _ rfl

/-- C30: for every non-empty path and every prior list, after
`UpdateUiWithCurrentFile` the list `s_RecentFiles` has the path as its first
element, contains the path exactly once, has at most `MAX_RECENT_FILES`
entries (`MAX_RECENT_FILES >= 1`), and its remaining entries are the prior
entries other than the path in their prior order, cut from the end; for the
empty path the list is unchanged. -/
theorem C30_recent_files_maintenance (MAX_RECENT_FILES : ℕ) (hMAX : 1 ≤ MAX_RECENT_FILES)
    (path : String) (st : RecentFiles) :
    (path ≠ "" →
      (UpdateUiWithCurrentFile MAX_RECENT_FILES path st).s_RecentFiles.head? = some path ∧
      (UpdateUiWithCurrentFile MAX_RECENT_FILES path st).s_RecentFiles.count path = 1 ∧
      (UpdateUiWithCurrentFile MAX_RECENT_FILES path st).s_RecentFiles.length
        ≤ MAX_RECENT_FILES ∧
      (UpdateUiWithCurrentFile MAX_RECENT_FILES path st).s_RecentFiles.tail
        = (st.s_RecentFiles.filter (fun f => f ≠ path)).take (MAX_RECENT_FILES - 1)) ∧
    (UpdateUiWithCurrentFile MAX_RECENT_FILES "" st).s_RecentFiles = st.s_RecentFiles := by
  constructor
  · intro hpath
    obtain ⟨k, rfl⟩ : ∃ k, MAX_RECENT_FILES = k + 1 := ⟨MAX_RECENT_FILES - 1, by omega⟩
    rw [UpdateUiWithCurrentFile_list (k + 1) path st hpath, List.take_succ_cons]
    have hnot : path ∉ (st.s_RecentFiles.filter (fun f => f ≠ path)).take k := by
      intro hmem
      have hm := List.mem_of_mem_take hmem
      rw [List.mem_filter] at hm
      simpa using hm.2
    refine ⟨rfl, ?_, ?_, ?_⟩
    · rw [List.count_cons_self, List.count_eq_zero_of_not_mem hnot]
    · rw [List.length_cons, List.length_take]
      omega
    · rw [List.tail_cons, Nat.add_sub_cancel]
  · rfl

theorem C30_recent_files_maintenance_witness :
    (UpdateUiWithCurrentFile 3 "b.epub"
        { m_CurrentFilePath := "", s_RecentFiles := ["a.epub", "b.epub", "c.epub", "d.epub"] }
      ).s_RecentFiles.head? = some "b.epub" ∧
    (UpdateUiWithCurrentFile 3 "b.epub"
        { m_CurrentFilePath := "", s_RecentFiles := ["a.epub", "b.epub", "c.epub", "d.epub"] }
      ).s_RecentFiles.count "b.epub" = 1 ∧
    (UpdateUiWithCurrentFile 3 "b.epub"
        { m_CurrentFilePath := "", s_RecentFiles := ["a.epub", "b.epub", "c.epub", "d.epub"] }
      ).s_RecentFiles.length ≤ 3 ∧
    (UpdateUiWithCurrentFile 3 "b.epub"
        { m_CurrentFilePath := "", s_RecentFiles := ["a.epub", "b.epub", "c.epub", "d.epub"] }
      ).s_RecentFiles.tail
      = (["a.epub", "b.epub", "c.epub", "d.epub"].filter (fun f => f ≠ "b.epub")).take (3 - 1) :=
  (C30_recent_files_maintenance 3 (by decide) "b.epub"
    { m_CurrentFilePath := "", s_RecentFiles := ["a.epub", "b.epub", "c.epub", "d.epub"] }).1
    (by decide)

/-! ## Single precision: helper lemmas -/

theorem roundHalfEven_eq_of_near (q : ℚ) (n : ℤ) (h : |q - (n : ℚ)| < 1 / 2) :
    roundHalfEven q = n := by
  obtain ⟨h1, h2⟩ := abs_lt.mp h
  unfold roundHalfEven
  rcases le_or_lt (n : ℚ) q with hq | hq
  · have hf : ⌊q⌋ = n := by
      rw [Int.floor_eq_iff]
      constructor <;> linarith
    rw [hf, if_pos (by linarith)]
  · have hf : ⌊q⌋ = n - 1 := by
      rw [Int.floor_eq_iff]
      push_cast
      constructor <;> linarith
    rw [hf]
    push_cast
    rw [if_neg (by linarith), if_pos (by linarith)]
    ring

/-- Evaluation of `toFloat` at a positive value whose binade and nearest
significand are known. -/
theorem toFloat_eq_of_near (x : ℚ) (e n : ℤ) (hx : 0 < x) (h1 : (2 : ℚ) ^ e ≤ x)
    (h2 : x < (2 : ℚ) ^ (e + 1)) (hn : |x / (2 : ℚ) ^ (e - 23) - (n : ℚ)| < 1 / 2) :
    toFloat x = (n : ℚ) * (2 : ℚ) ^ (e - 23) := by
  have hcast : ((2 : ℕ) : ℚ) = 2 := by norm_num
  have habs : |x| = x := abs_of_pos hx
  have hlog : Int.log 2 |x| = e := by
    rw [habs]
    have a1 : e ≤ Int.log 2 x := by
      rw [← Int.zpow_le_iff_le_log (by norm_num) hx, hcast]
      exact h1
    have a2 : Int.log 2 x < e + 1 := by
      rw [← Int.lt_zpow_iff_log_lt (by norm_num) hx, hcast]
      exact h2
    omega
  unfold toFloat
  rw [if_neg (ne_of_gt hx)]
  simp only [hlog]
  rw [roundHalfEven_eq_of_near _ n hn]

/-- The `float` written `0.69f` is `11576279 / 2^24`. -/
theorem toFloat_069 : toFloat (69 / 100) = 11576279 / 16777216 := by
  rw [toFloat_eq_of_near (69 / 100) (-1) 11576279 (by norm_num) (by norm_num) (by norm_num)
    (by rw [abs_lt]; constructor <;> norm_num)]
  norm_num

end Sigil
